import Mathlib

/-!
BHEngine: Vulkan RHI support tools

A shallow embedding of `EngineBase::Tools`
(`engine/source/core/Graphics/RHI/VulkanRHI/External/Tools.{h,cpp}`):
the image-layout barrier helpers, `alignedSize`, the diagnostic string
tables, the projection matrices, file and image input, the depth format
selection and `AutoDeleter`, together with the properties the
specification states about them.

Conventions of the embedding

* C enums (`VkImageLayout`, `VkResult`, `VkPhysicalDeviceType`) are `Int`
  codes, so a `switch` with a `default:` label is total over every value
  the enum's underlying type can hold.
* Flag words (`VkAccessFlags`, `VkPipelineStageFlags`, ...) and `uint32_t`
  values are `Nat`, with `% 2 ^ 32` written out where the C arithmetic can
  wrap.
* A command buffer is the list of commands recorded into it so far;
  recording appends at the end.
* `float` arithmetic is read as exact arithmetic over the rationals, with
  infinities and NaN added where a divisor can be zero (`FloatValue`).
* `int` arithmetic wraps at 32 bits (`int32`).
* Output parameters (`int*`, `VkFormat*`) are returned next to the result;
  library and API functions the tools call (`std::tan`,
  `stbi_load_from_memory`, `vkGetPhysicalDeviceFormatProperties`) are
  parameters.
-/

namespace EngineBase
namespace Tools

/-! ## Vulkan API types and constants (`vulkan/vulkan.h`) -/

abbrev VkImageLayout := Int
abbrev VkAccessFlags := Nat
abbrev VkPipelineStageFlags := Nat
abbrev VkImageAspectFlags := Nat
abbrev VkDependencyFlags := Nat
abbrev VkImage := Nat

def VK_IMAGE_LAYOUT_UNDEFINED : VkImageLayout := 0
def VK_IMAGE_LAYOUT_GENERAL : VkImageLayout := 1
def VK_IMAGE_LAYOUT_COLOR_ATTACHMENT_OPTIMAL : VkImageLayout := 2
def VK_IMAGE_LAYOUT_DEPTH_STENCIL_ATTACHMENT_OPTIMAL : VkImageLayout := 3
def VK_IMAGE_LAYOUT_DEPTH_STENCIL_READ_ONLY_OPTIMAL : VkImageLayout := 4
def VK_IMAGE_LAYOUT_SHADER_READ_ONLY_OPTIMAL : VkImageLayout := 5
def VK_IMAGE_LAYOUT_TRANSFER_SRC_OPTIMAL : VkImageLayout := 6
def VK_IMAGE_LAYOUT_TRANSFER_DST_OPTIMAL : VkImageLayout := 7
def VK_IMAGE_LAYOUT_PREINITIALIZED : VkImageLayout := 8

def VK_ACCESS_SHADER_READ_BIT : VkAccessFlags := 0x00000020
def VK_ACCESS_COLOR_ATTACHMENT_WRITE_BIT : VkAccessFlags := 0x00000100
def VK_ACCESS_DEPTH_STENCIL_ATTACHMENT_WRITE_BIT : VkAccessFlags := 0x00000400
def VK_ACCESS_TRANSFER_READ_BIT : VkAccessFlags := 0x00000800
def VK_ACCESS_TRANSFER_WRITE_BIT : VkAccessFlags := 0x00001000
def VK_ACCESS_HOST_WRITE_BIT : VkAccessFlags := 0x00004000

def VK_PIPELINE_STAGE_ALL_COMMANDS_BIT : VkPipelineStageFlags := 0x00010000

/-- The `VkImageSubresourceRange` structure of the Vulkan API. -/
structure VkImageSubresourceRange where
  aspectMask : VkImageAspectFlags
  baseMipLevel : Nat
  levelCount : Nat
  baseArrayLayer : Nat
  layerCount : Nat
  deriving DecidableEq, Repr

/-- The `VkImageMemoryBarrier` structure of the Vulkan API (`pNext` is the
address of the extension chain, `0` for `nullptr`). -/
structure VkImageMemoryBarrier where
  sType : Nat
  pNext : Nat
  srcAccessMask : VkAccessFlags
  dstAccessMask : VkAccessFlags
  oldLayout : VkImageLayout
  newLayout : VkImageLayout
  srcQueueFamilyIndex : Nat
  dstQueueFamilyIndex : Nat
  image : VkImage
  subresourceRange : VkImageSubresourceRange
  deriving DecidableEq, Repr

/-- The `VkMemoryBarrier` structure of the Vulkan API. -/
structure VkMemoryBarrier where
  srcAccessMask : VkAccessFlags
  dstAccessMask : VkAccessFlags
  deriving DecidableEq, Repr

/-- The `VkBufferMemoryBarrier` structure of the Vulkan API, reduced to its
access masks and buffer handle (the tools never build one). -/
structure VkBufferMemoryBarrier where
  srcAccessMask : VkAccessFlags
  dstAccessMask : VkAccessFlags
  buffer : Nat
  deriving DecidableEq, Repr

/-- One command recorded into a command buffer: a pipeline barrier with
the arguments `vkCmdPipelineBarrier` received, or any other command
(identified by a tag, its contents being of no concern to the tools). -/
inductive Command where
  | pipelineBarrier (srcStageMask dstStageMask : VkPipelineStageFlags)
      (dependencyFlags : VkDependencyFlags)
      (memoryBarriers : List VkMemoryBarrier)
      (bufferMemoryBarriers : List VkBufferMemoryBarrier)
      (imageMemoryBarriers : List VkImageMemoryBarrier)
  | other (tag : Nat)
  deriving DecidableEq, Repr

/-- A command buffer in the recording state: the commands recorded so far,
oldest first. -/
abbrev VkCommandBuffer := List Command

/-- Modelled from the spec: `vkCmdPipelineBarrier` is the Vulkan API entry
point, not code of the sources; §3 describes the command-recording context
as a caller-owned sequence into which barrier commands are appended, so the
call appends one pipeline-barrier command holding exactly the arguments it
was given. -/
def vkCmdPipelineBarrier (cmdbuffer : VkCommandBuffer)
    (srcStageMask dstStageMask : VkPipelineStageFlags)
    (dependencyFlags : VkDependencyFlags)
    (memoryBarriers : List VkMemoryBarrier)
    (bufferMemoryBarriers : List VkBufferMemoryBarrier)
    (imageMemoryBarriers : List VkImageMemoryBarrier) : VkCommandBuffer :=
  cmdbuffer ++ [Command.pipelineBarrier srcStageMask dstStageMask dependencyFlags
    memoryBarriers bufferMemoryBarriers imageMemoryBarriers]

/-! ## Image layout transitions (`Tools.cpp`, lines 251-422) -/

/-- First `switch` of `setImageLayout` (Tools.cpp:274-322): the source
access mask is set from the old layout; an old layout without a `case`
label falls to `default: break;` and leaves the record as it is. -/
def setSrcAccessMask (imageMemoryBarrier : VkImageMemoryBarrier)
    (oldImageLayout : VkImageLayout) : VkImageMemoryBarrier :=
  if oldImageLayout = VK_IMAGE_LAYOUT_UNDEFINED then
    { imageMemoryBarrier with srcAccessMask := 0 }
  else if oldImageLayout = VK_IMAGE_LAYOUT_PREINITIALIZED then
    { imageMemoryBarrier with srcAccessMask := VK_ACCESS_HOST_WRITE_BIT }
  else if oldImageLayout = VK_IMAGE_LAYOUT_COLOR_ATTACHMENT_OPTIMAL then
    { imageMemoryBarrier with srcAccessMask := VK_ACCESS_COLOR_ATTACHMENT_WRITE_BIT }
  else if oldImageLayout = VK_IMAGE_LAYOUT_DEPTH_STENCIL_ATTACHMENT_OPTIMAL then
    { imageMemoryBarrier with srcAccessMask := VK_ACCESS_DEPTH_STENCIL_ATTACHMENT_WRITE_BIT }
  else if oldImageLayout = VK_IMAGE_LAYOUT_TRANSFER_SRC_OPTIMAL then
    { imageMemoryBarrier with srcAccessMask := VK_ACCESS_TRANSFER_READ_BIT }
  else if oldImageLayout = VK_IMAGE_LAYOUT_TRANSFER_DST_OPTIMAL then
    { imageMemoryBarrier with srcAccessMask := VK_ACCESS_TRANSFER_WRITE_BIT }
  else if oldImageLayout = VK_IMAGE_LAYOUT_SHADER_READ_ONLY_OPTIMAL then
    { imageMemoryBarrier with srcAccessMask := VK_ACCESS_SHADER_READ_BIT }
  else
    imageMemoryBarrier

/-- Second `switch` of `setImageLayout` (Tools.cpp:326-364): the destination
access mask is set from the new layout; entering
`SHADER_READ_ONLY_OPTIMAL` with an empty source mask also rewrites the
source mask; a new layout without a `case` label leaves the record as it
is. -/
def setDstAccessMask (imageMemoryBarrier : VkImageMemoryBarrier)
    (newImageLayout : VkImageLayout) : VkImageMemoryBarrier :=
  if newImageLayout = VK_IMAGE_LAYOUT_TRANSFER_DST_OPTIMAL then
    { imageMemoryBarrier with dstAccessMask := VK_ACCESS_TRANSFER_WRITE_BIT }
  else if newImageLayout = VK_IMAGE_LAYOUT_TRANSFER_SRC_OPTIMAL then
    { imageMemoryBarrier with dstAccessMask := VK_ACCESS_TRANSFER_READ_BIT }
  else if newImageLayout = VK_IMAGE_LAYOUT_COLOR_ATTACHMENT_OPTIMAL then
    { imageMemoryBarrier with dstAccessMask := VK_ACCESS_COLOR_ATTACHMENT_WRITE_BIT }
  else if newImageLayout = VK_IMAGE_LAYOUT_DEPTH_STENCIL_ATTACHMENT_OPTIMAL then
    { imageMemoryBarrier with
      dstAccessMask := imageMemoryBarrier.dstAccessMask |||
        VK_ACCESS_DEPTH_STENCIL_ATTACHMENT_WRITE_BIT }
  else if newImageLayout = VK_IMAGE_LAYOUT_SHADER_READ_ONLY_OPTIMAL then
    let widened : VkImageMemoryBarrier :=
      if imageMemoryBarrier.srcAccessMask = 0 then
        { imageMemoryBarrier with
          srcAccessMask := VK_ACCESS_HOST_WRITE_BIT ||| VK_ACCESS_TRANSFER_WRITE_BIT }
      else
        imageMemoryBarrier
    { widened with dstAccessMask := VK_ACCESS_SHADER_READ_BIT }
  else
    imageMemoryBarrier

/-- The barrier record `setImageLayout` has built when it reaches
`vkCmdPipelineBarrier` (Tools.cpp:264-364). `init` is the record returned
by `vks::initializers::imageMemoryBarrier()`, a function of
`VulkanInitializers.hpp`, which is not among the sources. -/
def setImageLayoutBarrier (init : VkImageMemoryBarrier) (image : VkImage)
    (oldImageLayout newImageLayout : VkImageLayout)
    (subresourceRange : VkImageSubresourceRange) : VkImageMemoryBarrier :=
  let imageMemoryBarrier : VkImageMemoryBarrier :=
    { init with
      oldLayout := oldImageLayout
      newLayout := newImageLayout
      image := image
      subresourceRange := subresourceRange }
  let imageMemoryBarrier := setSrcAccessMask imageMemoryBarrier oldImageLayout
  setDstAccessMask imageMemoryBarrier newImageLayout

/-- `setImageLayout` with an explicit subresource range (Tools.cpp:255-375):
builds the barrier record and records one pipeline barrier carrying it. -/
def setImageLayout (init : VkImageMemoryBarrier) (cmdbuffer : VkCommandBuffer)
    (image : VkImage) (oldImageLayout newImageLayout : VkImageLayout)
    (subresourceRange : VkImageSubresourceRange)
    (srcStageMask dstStageMask : VkPipelineStageFlags) : VkCommandBuffer :=
  vkCmdPipelineBarrier cmdbuffer srcStageMask dstStageMask 0 [] []
    [setImageLayoutBarrier init image oldImageLayout newImageLayout subresourceRange]

/-- `setImageLayout` with a fixed subresource range on the first mip level
and layer (Tools.cpp:377-393). The range is value-initialised
(`subresourceRange = {}`), so `baseArrayLayer` stays `0`. -/
def setImageLayoutAspect (init : VkImageMemoryBarrier) (cmdbuffer : VkCommandBuffer)
    (image : VkImage) (aspectMask : VkImageAspectFlags)
    (oldImageLayout newImageLayout : VkImageLayout)
    (srcStageMask dstStageMask : VkPipelineStageFlags) : VkCommandBuffer :=
  let subresourceRange : VkImageSubresourceRange :=
    { aspectMask := 0, baseMipLevel := 0, levelCount := 0, baseArrayLayer := 0, layerCount := 0 }
  let subresourceRange := { subresourceRange with aspectMask := aspectMask }
  let subresourceRange := { subresourceRange with baseMipLevel := 0 }
  let subresourceRange := { subresourceRange with levelCount := 1 }
  let subresourceRange := { subresourceRange with layerCount := 1 }
  setImageLayout init cmdbuffer image oldImageLayout newImageLayout subresourceRange
    srcStageMask dstStageMask

/-- A call of the aspect-mask overload that passes no stage mask: both
take the default argument of the declaration (Tools.h:157-164). -/
def setImageLayoutAspect_noStages (init : VkImageMemoryBarrier) (cmdbuffer : VkCommandBuffer)
    (image : VkImage) (aspectMask : VkImageAspectFlags)
    (oldImageLayout newImageLayout : VkImageLayout) : VkCommandBuffer :=
  setImageLayoutAspect init cmdbuffer image aspectMask oldImageLayout newImageLayout
    VK_PIPELINE_STAGE_ALL_COMMANDS_BIT VK_PIPELINE_STAGE_ALL_COMMANDS_BIT

/-- A call of the aspect-mask overload that passes the source stage mask
only: the destination stage mask takes its default argument
(Tools.h:157-164). -/
def setImageLayoutAspect_srcStage (init : VkImageMemoryBarrier) (cmdbuffer : VkCommandBuffer)
    (image : VkImage) (aspectMask : VkImageAspectFlags)
    (oldImageLayout newImageLayout : VkImageLayout)
    (srcStageMask : VkPipelineStageFlags) : VkCommandBuffer :=
  setImageLayoutAspect init cmdbuffer image aspectMask oldImageLayout newImageLayout
    srcStageMask VK_PIPELINE_STAGE_ALL_COMMANDS_BIT

/-- The barrier record `insertImageMemoryBarrier` has built when it reaches
`vkCmdPipelineBarrier` (Tools.cpp:406-412); `init` as in
`setImageLayoutBarrier`. -/
def insertImageMemoryBarrierRecord (init : VkImageMemoryBarrier) (image : VkImage)
    (srcAccessMask dstAccessMask : VkAccessFlags)
    (oldImageLayout newImageLayout : VkImageLayout)
    (subresourceRange : VkImageSubresourceRange) : VkImageMemoryBarrier :=
  { init with
    srcAccessMask := srcAccessMask
    dstAccessMask := dstAccessMask
    oldLayout := oldImageLayout
    newLayout := newImageLayout
    image := image
    subresourceRange := subresourceRange }

/-- `insertImageMemoryBarrier` (Tools.cpp:395-422): the caller gives both
access masks; one pipeline barrier carrying the record is recorded. -/
def insertImageMemoryBarrier (init : VkImageMemoryBarrier) (cmdbuffer : VkCommandBuffer)
    (image : VkImage) (srcAccessMask dstAccessMask : VkAccessFlags)
    (oldImageLayout newImageLayout : VkImageLayout)
    (srcStageMask dstStageMask : VkPipelineStageFlags)
    (subresourceRange : VkImageSubresourceRange) : VkCommandBuffer :=
  vkCmdPipelineBarrier cmdbuffer srcStageMask dstStageMask 0 [] []
    [insertImageMemoryBarrierRecord init image srcAccessMask dstAccessMask
      oldImageLayout newImageLayout subresourceRange]

/-- A barrier record with every field zero, the result of value
initialisation (`VkImageMemoryBarrier b {}`); the concrete initial record
of the worked examples. -/
def zeroImageMemoryBarrier : VkImageMemoryBarrier :=
  { sType := 0, pNext := 0, srcAccessMask := 0, dstAccessMask := 0, oldLayout := 0,
    newLayout := 0, srcQueueFamilyIndex := 0, dstQueueFamilyIndex := 0, image := 0,
    subresourceRange :=
      { aspectMask := 0, baseMipLevel := 0, levelCount := 0, baseArrayLayer := 0,
        layerCount := 0 } }

/-! ### The transition table as the specification words it (§4.2, §8) -/

/-- Specification table "finished access": the access that must have
completed when an image leaves a layout; `none` for a layout the table
does not list. -/
def specFinishedAccess (layout : VkImageLayout) : Option VkAccessFlags :=
  if layout = VK_IMAGE_LAYOUT_UNDEFINED then some 0
  else if layout = VK_IMAGE_LAYOUT_PREINITIALIZED then some VK_ACCESS_HOST_WRITE_BIT
  else if layout = VK_IMAGE_LAYOUT_COLOR_ATTACHMENT_OPTIMAL then
    some VK_ACCESS_COLOR_ATTACHMENT_WRITE_BIT
  else if layout = VK_IMAGE_LAYOUT_DEPTH_STENCIL_ATTACHMENT_OPTIMAL then
    some VK_ACCESS_DEPTH_STENCIL_ATTACHMENT_WRITE_BIT
  else if layout = VK_IMAGE_LAYOUT_TRANSFER_SRC_OPTIMAL then some VK_ACCESS_TRANSFER_READ_BIT
  else if layout = VK_IMAGE_LAYOUT_TRANSFER_DST_OPTIMAL then some VK_ACCESS_TRANSFER_WRITE_BIT
  else if layout = VK_IMAGE_LAYOUT_SHADER_READ_ONLY_OPTIMAL then some VK_ACCESS_SHADER_READ_BIT
  else none

/-- Specification table "required access": the access that must be visible
before an image is used in a layout; `none` for a layout the table does
not list. -/
def specRequiredAccess (layout : VkImageLayout) : Option VkAccessFlags :=
  if layout = VK_IMAGE_LAYOUT_TRANSFER_DST_OPTIMAL then some VK_ACCESS_TRANSFER_WRITE_BIT
  else if layout = VK_IMAGE_LAYOUT_TRANSFER_SRC_OPTIMAL then some VK_ACCESS_TRANSFER_READ_BIT
  else if layout = VK_IMAGE_LAYOUT_COLOR_ATTACHMENT_OPTIMAL then
    some VK_ACCESS_COLOR_ATTACHMENT_WRITE_BIT
  else if layout = VK_IMAGE_LAYOUT_DEPTH_STENCIL_ATTACHMENT_OPTIMAL then
    some VK_ACCESS_DEPTH_STENCIL_ATTACHMENT_WRITE_BIT
  else if layout = VK_IMAGE_LAYOUT_SHADER_READ_ONLY_OPTIMAL then some VK_ACCESS_SHADER_READ_BIT
  else none

/-- The old layouts the specification's table lists. -/
def specOldLayouts : List VkImageLayout :=
  [VK_IMAGE_LAYOUT_UNDEFINED, VK_IMAGE_LAYOUT_PREINITIALIZED,
   VK_IMAGE_LAYOUT_COLOR_ATTACHMENT_OPTIMAL, VK_IMAGE_LAYOUT_DEPTH_STENCIL_ATTACHMENT_OPTIMAL,
   VK_IMAGE_LAYOUT_TRANSFER_SRC_OPTIMAL, VK_IMAGE_LAYOUT_TRANSFER_DST_OPTIMAL,
   VK_IMAGE_LAYOUT_SHADER_READ_ONLY_OPTIMAL]

/-- The new layouts the specification's table lists. -/
def specNewLayouts : List VkImageLayout :=
  [VK_IMAGE_LAYOUT_TRANSFER_DST_OPTIMAL, VK_IMAGE_LAYOUT_TRANSFER_SRC_OPTIMAL,
   VK_IMAGE_LAYOUT_COLOR_ATTACHMENT_OPTIMAL, VK_IMAGE_LAYOUT_DEPTH_STENCIL_ATTACHMENT_OPTIMAL,
   VK_IMAGE_LAYOUT_SHADER_READ_ONLY_OPTIMAL]

/-- The access masks the specification's table derives for a transition:
the two lookups, with the source mask widened to host write or transfer
write when the image enters `SHADER_READ_ONLY_OPTIMAL` with an empty
source mask; `none` for a pair the table does not list. -/
def specDerivedMasks (oldLayout newLayout : VkImageLayout) :
    Option (VkAccessFlags × VkAccessFlags) :=
  match specFinishedAccess oldLayout, specRequiredAccess newLayout with
  | some finished, some required =>
    if newLayout = VK_IMAGE_LAYOUT_SHADER_READ_ONLY_OPTIMAL ∧ finished = 0 then
      some (VK_ACCESS_HOST_WRITE_BIT ||| VK_ACCESS_TRANSFER_WRITE_BIT, required)
    else
      some (finished, required)
  | _, _ => none

/-! ## `alignedSize` (`Tools.cpp`, lines 515-518) -/

/-- Addition of two `uint32_t` values. -/
def u32add (a b : Nat) : Nat := (a + b) % 2 ^ 32

/-- Subtraction of two `uint32_t` values (wraps below zero). -/
def u32sub (a b : Nat) : Nat := (a % 2 ^ 32 + (2 ^ 32 - b % 2 ^ 32)) % 2 ^ 32

/-- Bitwise complement of a `uint32_t` value. -/
def u32not (a : Nat) : Nat := 2 ^ 32 - 1 - a % 2 ^ 32

/-- `alignedSize` (Tools.cpp:515-518):
`(value + alignment - 1) & ~(alignment - 1)` in `uint32_t` arithmetic. -/
def alignedSize (value alignment : Nat) : Nat :=
  u32sub (u32add value alignment) 1 &&& u32not (u32sub alignment 1)

/-! ## Diagnostics (`Tools.cpp`, lines 160-207) -/

abbrev VkResult := Int
abbrev VkPhysicalDeviceType := Int

def VK_SUCCESS : VkResult := 0
def VK_NOT_READY : VkResult := 1
def VK_TIMEOUT : VkResult := 2
def VK_EVENT_SET : VkResult := 3
def VK_EVENT_RESET : VkResult := 4
def VK_INCOMPLETE : VkResult := 5
def VK_ERROR_OUT_OF_HOST_MEMORY : VkResult := -1
def VK_ERROR_OUT_OF_DEVICE_MEMORY : VkResult := -2
def VK_ERROR_INITIALIZATION_FAILED : VkResult := -3
def VK_ERROR_DEVICE_LOST : VkResult := -4
def VK_ERROR_MEMORY_MAP_FAILED : VkResult := -5
def VK_ERROR_LAYER_NOT_PRESENT : VkResult := -6
def VK_ERROR_EXTENSION_NOT_PRESENT : VkResult := -7
def VK_ERROR_FEATURE_NOT_PRESENT : VkResult := -8
def VK_ERROR_INCOMPATIBLE_DRIVER : VkResult := -9
def VK_ERROR_TOO_MANY_OBJECTS : VkResult := -10
def VK_ERROR_FORMAT_NOT_SUPPORTED : VkResult := -11
def VK_ERROR_SURFACE_LOST_KHR : VkResult := -1000000000
def VK_ERROR_NATIVE_WINDOW_IN_USE_KHR : VkResult := -1000000001
def VK_SUBOPTIMAL_KHR : VkResult := 1000001003
def VK_ERROR_OUT_OF_DATE_KHR : VkResult := -1000001004
def VK_ERROR_INCOMPATIBLE_DISPLAY_KHR : VkResult := -1000003001
def VK_ERROR_VALIDATION_FAILED_EXT : VkResult := -1000011001
def VK_ERROR_INVALID_SHADER_NV : VkResult := -1000012000

def VK_PHYSICAL_DEVICE_TYPE_OTHER : VkPhysicalDeviceType := 0
def VK_PHYSICAL_DEVICE_TYPE_INTEGRATED_GPU : VkPhysicalDeviceType := 1
def VK_PHYSICAL_DEVICE_TYPE_DISCRETE_GPU : VkPhysicalDeviceType := 2
def VK_PHYSICAL_DEVICE_TYPE_VIRTUAL_GPU : VkPhysicalDeviceType := 3
def VK_PHYSICAL_DEVICE_TYPE_CPU : VkPhysicalDeviceType := 4

/-- `errorString` (Tools.cpp:160-192): each `STR(r)` line expands to
`case VK_r: return "r"`; every other code takes the `default:` label. -/
def errorString (errorCode : VkResult) : String :=
  if errorCode = VK_NOT_READY then "NOT_READY"
  else if errorCode = VK_TIMEOUT then "TIMEOUT"
  else if errorCode = VK_EVENT_SET then "EVENT_SET"
  else if errorCode = VK_EVENT_RESET then "EVENT_RESET"
  else if errorCode = VK_INCOMPLETE then "INCOMPLETE"
  else if errorCode = VK_ERROR_OUT_OF_HOST_MEMORY then "ERROR_OUT_OF_HOST_MEMORY"
  else if errorCode = VK_ERROR_OUT_OF_DEVICE_MEMORY then "ERROR_OUT_OF_DEVICE_MEMORY"
  else if errorCode = VK_ERROR_INITIALIZATION_FAILED then "ERROR_INITIALIZATION_FAILED"
  else if errorCode = VK_ERROR_DEVICE_LOST then "ERROR_DEVICE_LOST"
  else if errorCode = VK_ERROR_MEMORY_MAP_FAILED then "ERROR_MEMORY_MAP_FAILED"
  else if errorCode = VK_ERROR_LAYER_NOT_PRESENT then "ERROR_LAYER_NOT_PRESENT"
  else if errorCode = VK_ERROR_EXTENSION_NOT_PRESENT then "ERROR_EXTENSION_NOT_PRESENT"
  else if errorCode = VK_ERROR_FEATURE_NOT_PRESENT then "ERROR_FEATURE_NOT_PRESENT"
  else if errorCode = VK_ERROR_INCOMPATIBLE_DRIVER then "ERROR_INCOMPATIBLE_DRIVER"
  else if errorCode = VK_ERROR_TOO_MANY_OBJECTS then "ERROR_TOO_MANY_OBJECTS"
  else if errorCode = VK_ERROR_FORMAT_NOT_SUPPORTED then "ERROR_FORMAT_NOT_SUPPORTED"
  else if errorCode = VK_ERROR_SURFACE_LOST_KHR then "ERROR_SURFACE_LOST_KHR"
  else if errorCode = VK_ERROR_NATIVE_WINDOW_IN_USE_KHR then "ERROR_NATIVE_WINDOW_IN_USE_KHR"
  else if errorCode = VK_SUBOPTIMAL_KHR then "SUBOPTIMAL_KHR"
  else if errorCode = VK_ERROR_OUT_OF_DATE_KHR then "ERROR_OUT_OF_DATE_KHR"
  else if errorCode = VK_ERROR_INCOMPATIBLE_DISPLAY_KHR then "ERROR_INCOMPATIBLE_DISPLAY_KHR"
  else if errorCode = VK_ERROR_VALIDATION_FAILED_EXT then "ERROR_VALIDATION_FAILED_EXT"
  else if errorCode = VK_ERROR_INVALID_SHADER_NV then "ERROR_INVALID_SHADER_NV"
  else "UNKNOWN_ERROR"

/-- `physicalDeviceTypeString` (Tools.cpp:194-207): each `STR(r)` line
expands to `case VK_PHYSICAL_DEVICE_TYPE_r: return "r"`. -/
def physicalDeviceTypeString (type : VkPhysicalDeviceType) : String :=
  if type = VK_PHYSICAL_DEVICE_TYPE_OTHER then "OTHER"
  else if type = VK_PHYSICAL_DEVICE_TYPE_INTEGRATED_GPU then "INTEGRATED_GPU"
  else if type = VK_PHYSICAL_DEVICE_TYPE_DISCRETE_GPU then "DISCRETE_GPU"
  else if type = VK_PHYSICAL_DEVICE_TYPE_VIRTUAL_GPU then "VIRTUAL_GPU"
  else if type = VK_PHYSICAL_DEVICE_TYPE_CPU then "CPU"
  else "UNKNOWN_DEVICE_TYPE"

/-- The result codes `errorString` has a `case` label for, each with its
full symbolic name in `vulkan.h`. -/
def recognisedResults : List (VkResult × String) :=
  [(VK_NOT_READY, "VK_NOT_READY"),
   (VK_TIMEOUT, "VK_TIMEOUT"),
   (VK_EVENT_SET, "VK_EVENT_SET"),
   (VK_EVENT_RESET, "VK_EVENT_RESET"),
   (VK_INCOMPLETE, "VK_INCOMPLETE"),
   (VK_ERROR_OUT_OF_HOST_MEMORY, "VK_ERROR_OUT_OF_HOST_MEMORY"),
   (VK_ERROR_OUT_OF_DEVICE_MEMORY, "VK_ERROR_OUT_OF_DEVICE_MEMORY"),
   (VK_ERROR_INITIALIZATION_FAILED, "VK_ERROR_INITIALIZATION_FAILED"),
   (VK_ERROR_DEVICE_LOST, "VK_ERROR_DEVICE_LOST"),
   (VK_ERROR_MEMORY_MAP_FAILED, "VK_ERROR_MEMORY_MAP_FAILED"),
   (VK_ERROR_LAYER_NOT_PRESENT, "VK_ERROR_LAYER_NOT_PRESENT"),
   (VK_ERROR_EXTENSION_NOT_PRESENT, "VK_ERROR_EXTENSION_NOT_PRESENT"),
   (VK_ERROR_FEATURE_NOT_PRESENT, "VK_ERROR_FEATURE_NOT_PRESENT"),
   (VK_ERROR_INCOMPATIBLE_DRIVER, "VK_ERROR_INCOMPATIBLE_DRIVER"),
   (VK_ERROR_TOO_MANY_OBJECTS, "VK_ERROR_TOO_MANY_OBJECTS"),
   (VK_ERROR_FORMAT_NOT_SUPPORTED, "VK_ERROR_FORMAT_NOT_SUPPORTED"),
   (VK_ERROR_SURFACE_LOST_KHR, "VK_ERROR_SURFACE_LOST_KHR"),
   (VK_ERROR_NATIVE_WINDOW_IN_USE_KHR, "VK_ERROR_NATIVE_WINDOW_IN_USE_KHR"),
   (VK_SUBOPTIMAL_KHR, "VK_SUBOPTIMAL_KHR"),
   (VK_ERROR_OUT_OF_DATE_KHR, "VK_ERROR_OUT_OF_DATE_KHR"),
   (VK_ERROR_INCOMPATIBLE_DISPLAY_KHR, "VK_ERROR_INCOMPATIBLE_DISPLAY_KHR"),
   (VK_ERROR_VALIDATION_FAILED_EXT, "VK_ERROR_VALIDATION_FAILED_EXT"),
   (VK_ERROR_INVALID_SHADER_NV, "VK_ERROR_INVALID_SHADER_NV")]

/-- The device types `physicalDeviceTypeString` has a `case` label for, each
with the name the specification gives it. -/
def recognisedDeviceTypes : List (VkPhysicalDeviceType × String) :=
  [(VK_PHYSICAL_DEVICE_TYPE_OTHER, "OTHER"),
   (VK_PHYSICAL_DEVICE_TYPE_INTEGRATED_GPU, "INTEGRATED_GPU"),
   (VK_PHYSICAL_DEVICE_TYPE_DISCRETE_GPU, "DISCRETE_GPU"),
   (VK_PHYSICAL_DEVICE_TYPE_VIRTUAL_GPU, "VIRTUAL_GPU"),
   (VK_PHYSICAL_DEVICE_TYPE_CPU, "CPU")]

/-! ## Projection matrices (`Tools.cpp`, lines 102-155)

`float` arithmetic is read as exact arithmetic over the rationals; for the
perspective matrix a division by zero gives an infinity or NaN, as it does
in `float`. -/

/-- `GetOrthographicProjectionMatrix` (Tools.cpp:133-155), the sixteen
entries in the order of the initialiser list. -/
def GetOrthographicProjectionMatrix (left_plane right_plane top_plane bottom_plane
    near_plane far_plane : ℚ) : List ℚ :=
  [2 / (right_plane - left_plane),
   0,
   0,
   0,

   0,
   2 / (bottom_plane - top_plane),
   0,
   0,

   0,
   0,
   1 / (near_plane - far_plane),
   0,

   -(right_plane + left_plane) / (right_plane - left_plane),
   -(bottom_plane + top_plane) / (bottom_plane - top_plane),
   near_plane / (near_plane - far_plane),
   1]

/-- One `char` of a file or of a pixel buffer. -/
abbrev Byte := Nat

/-- The file system: a partial map from paths to byte sequences; `none` for
a path that cannot be opened. -/
abbrev FileSystem := String → Option (List Byte)

/-- Model of a `std::ifstream` opened in binary mode: the bytes of the file
(`none` when opening failed) and the read position. -/
structure ifstream where
  contents : Option (List Byte)
  pos : Nat
  deriving DecidableEq, Repr

/-- Constructor `std::ifstream file( filename, std::ios::binary )`. -/
def ifstream.mk_binary (fs : FileSystem) (filename : String) : ifstream :=
  { contents := fs filename, pos := 0 }

/-- Member `fail()`: the stream could not be opened. -/
def ifstream.fail (file : ifstream) : Bool :=
  file.contents.isNone

/-- Member `tellg()`: the read position. -/
def ifstream.tellg (file : ifstream) : Nat :=
  file.pos

/-- Member `seekg( 0, std::ios::end )`. -/
def ifstream.seekg_end (file : ifstream) : ifstream :=
  { file with pos := (file.contents.getD []).length }

/-- Member `seekg( 0, std::ios::beg )`. -/
def ifstream.seekg_beg (file : ifstream) : ifstream :=
  { file with pos := 0 }

/-- Member `read( &buffer[0], count )`: up to `count` bytes from the read
position on are stored at the start of `buffer`, the rest of the buffer
stays, and the read position advances. -/
def ifstream.read (file : ifstream) (buffer : List Byte) (count : Nat) :
    List Byte × ifstream :=
  let got := ((file.contents.getD []).drop file.pos).take count
  (got ++ buffer.drop got.length, { file with pos := file.pos + got.length })

/-- `GetBinaryFileContents` (Tools.cpp:34-53). -/
def GetBinaryFileContents (fs : FileSystem) (filename : String) : List Byte :=
  let file := ifstream.mk_binary fs filename
  if file.fail then
    []
  else
    let beginPos := file.tellg
    let file := file.seekg_end
    let endPos := file.tellg
    let result : List Byte := List.replicate (endPos - beginPos) 0
    let file := file.seekg_beg
    let (result, _) := file.read result (endPos - beginPos)
    result

/-- What `stbi_load_from_memory` (stb_image.h, not among the sources) hands
back: the pixel buffer (`none` for a null pointer) and the values it left
in `*x`, `*y` and `*comp`. -/
structure StbiImage where
  image_data : Option (List Byte)
  x : Int
  y : Int
  comp : Int
  deriving DecidableEq, Repr

/-- The four `int*` output parameters of `GetImageData`: `none` is a null
pointer, `some v` a pointer to an `int` currently holding `v`. -/
structure ImageOutputs where
  width : Option Int
  height : Option Int
  components : Option Int
  data_size : Option Int
  deriving DecidableEq, Repr

/-- A value of type `int` after a wrapping 32-bit operation (two's
complement). -/
def int32 (x : Int) : Int := (x + 2 ^ 31) % 2 ^ 32 - 2 ^ 31

/-- `*p = v` behind the guard `if( p )`. -/
def storeIfNonNull (p : Option Int) (v : Int) : Option Int :=
  match p with
  | none => none
  | some _ => some v

/-- `GetImageData` (Tools.cpp:60-95). `stbi_load_from_memory` takes the
file bytes, their number and the requested component count. The result is
the returned vector together with the output parameters after the call;
`memcpy` fills the `size` bytes of `output` from the pixel buffer. -/
def GetImageData (fs : FileSystem)
    (stbi_load_from_memory : List Byte → Int → Int → StbiImage)
    (filename : String) (requested_components : Int) (out : ImageOutputs) :
    List Byte × ImageOutputs :=
  let file_data := GetBinaryFileContents fs filename
  if file_data.length = 0 then
    ([], out)
  else
    let image := stbi_load_from_memory file_data (int32 file_data.length) requested_components
    let tmp_width := image.x
    let tmp_height := image.y
    let tmp_components := image.comp
    match image.image_data with
    | none => ([], out)
    | some image_data =>
      if tmp_width ≤ 0 ∨ tmp_height ≤ 0 ∨ tmp_components ≤ 0 then
        ([], out)
      else
        let size := int32 (int32 (tmp_width * tmp_height) *
          (if requested_components ≤ 0 then tmp_components else requested_components))
        let out := { out with data_size := storeIfNonNull out.data_size size }
        let out := { out with width := storeIfNonNull out.width tmp_width }
        let out := { out with height := storeIfNonNull out.height tmp_height }
        let out := { out with components := storeIfNonNull out.components tmp_components }
        let output : List Byte :=
          image_data.take size.toNat ++ List.replicate (size.toNat - image_data.length) 0
        (output, out)

/-! ## Depth format selection (`Tools.cpp`, lines 209-234) -/

abbrev VkFormat := Int
abbrev VkFormatFeatureFlags := Nat
abbrev VkPhysicalDevice := Nat

def VK_FORMAT_D16_UNORM : VkFormat := 124
def VK_FORMAT_D32_SFLOAT : VkFormat := 126
def VK_FORMAT_D16_UNORM_S8_UINT : VkFormat := 128
def VK_FORMAT_D24_UNORM_S8_UINT : VkFormat := 129
def VK_FORMAT_D32_SFLOAT_S8_UINT : VkFormat := 130

def VK_FORMAT_FEATURE_DEPTH_STENCIL_ATTACHMENT_BIT : VkFormatFeatureFlags := 0x00000200

/-- The `VkFormatProperties` structure of the Vulkan API. -/
structure VkFormatProperties where
  linearTilingFeatures : VkFormatFeatureFlags
  optimalTilingFeatures : VkFormatFeatureFlags
  bufferFeatures : VkFormatFeatureFlags
  deriving DecidableEq, Repr

/-- The priority list of `getSupportedDepthFormat` (Tools.cpp:213-219). -/
def depthFormats : List VkFormat :=
  [VK_FORMAT_D32_SFLOAT_S8_UINT,
   VK_FORMAT_D32_SFLOAT,
   VK_FORMAT_D24_UNORM_S8_UINT,
   VK_FORMAT_D16_UNORM_S8_UINT,
   VK_FORMAT_D16_UNORM]

/-- The `for` loop of `getSupportedDepthFormat` (Tools.cpp:221-233) over the
formats still to visit; the result is the return value and `*depthFormat`
after the call. `vkGetPhysicalDeviceFormatProperties` is the Vulkan API
query, a parameter. -/
def getSupportedDepthFormat_loop
    (vkGetPhysicalDeviceFormatProperties : VkPhysicalDevice → VkFormat → VkFormatProperties)
    (physicalDevice : VkPhysicalDevice) :
    List VkFormat → VkFormat → Bool × VkFormat
  | [], depthFormat => (false, depthFormat)
  | format :: rest, depthFormat =>
    let formatProps := vkGetPhysicalDeviceFormatProperties physicalDevice format
    if formatProps.optimalTilingFeatures &&&
        VK_FORMAT_FEATURE_DEPTH_STENCIL_ATTACHMENT_BIT ≠ 0 then
      (true, format)
    else
      getSupportedDepthFormat_loop vkGetPhysicalDeviceFormatProperties physicalDevice rest
        depthFormat

/-- `getSupportedDepthFormat` (Tools.cpp:209-234): the return value and
`*depthFormat` after the call, `depthFormat` being `*depthFormat` before
it. -/
def getSupportedDepthFormat
    (vkGetPhysicalDeviceFormatProperties : VkPhysicalDevice → VkFormat → VkFormatProperties)
    (physicalDevice : VkPhysicalDevice) (depthFormat : VkFormat) : Bool × VkFormat :=
  getSupportedDepthFormat_loop vkGetPhysicalDeviceFormatProperties physicalDevice
    depthFormats depthFormat

/-! ## `AutoDeleter` (`Tools.h`, lines 51-100) -/

abbrev VkDevice := Nat

def VK_NULL_HANDLE : Nat := 0

/-- The data members of `AutoDeleter<T, F>`: `Object` is a Vulkan handle
(`VK_NULL_HANDLE` when empty), `Deleter` the address of the deleting
function (`0` for `nullptr`), `Device` the device handle. -/
structure AutoDeleter where
  Object : Nat
  Deleter : Nat
  Device : VkDevice
  deriving DecidableEq, Repr

/-- One call `Deleter( Device, Object, nullptr )`: the function called and
its three arguments (`pAllocator` is the address `0`). -/
structure DeleterCall where
  function : Nat
  device : VkDevice
  object : Nat
  pAllocator : Nat
  deriving DecidableEq, Repr

/-- The memory the `AutoDeleter` objects live in: the object stored at each
address. -/
abbrev AutoDeleterMemory := Nat → AutoDeleter

/-- Assignment to the object at one address. -/
def AutoDeleterMemory.store (memory : AutoDeleterMemory) (address : Nat)
    (value : AutoDeleter) : AutoDeleterMemory :=
  fun a => if a = address then value else memory a

/-- Default constructor (Tools.h:54-58). -/
def AutoDeleter.default : AutoDeleter :=
  { Object := VK_NULL_HANDLE, Deleter := 0, Device := VK_NULL_HANDLE }

/-- Destructor `~AutoDeleter()` (Tools.h:70-74): the calls of the deleter it
makes. -/
def AutoDeleter.destroy (self : AutoDeleter) : List DeleterCall :=
  if self.Object ≠ VK_NULL_HANDLE ∧ self.Deleter ≠ 0 ∧ self.Device ≠ VK_NULL_HANDLE then
    [{ function := self.Deleter, device := self.Device, object := self.Object,
       pAllocator := 0 }]
  else
    []

/-- Move assignment `operator=(AutoDeleter&& other)` (Tools.h:76-84) on the
objects at the addresses `this` and `other`. -/
def AutoDeleter.moveAssign (memory : AutoDeleterMemory) (this other : Nat) :
    AutoDeleterMemory :=
  if this ≠ other then
    let memory := memory.store this { memory this with Object := (memory other).Object }
    let memory := memory.store this { memory this with Deleter := (memory other).Deleter }
    let memory := memory.store this { memory this with Device := (memory other).Device }
    let memory := memory.store other { memory other with Object := VK_NULL_HANDLE }
    memory
  else
    memory

/-- Move constructor `AutoDeleter( AutoDeleter&& other )` (Tools.h:66-68):
the new object at `this`, its members not yet initialised (they hold
whatever the memory held), is move-assigned from `other`. -/
def AutoDeleter.moveConstruct (memory : AutoDeleterMemory) (this other : Nat) :
    AutoDeleterMemory :=
  AutoDeleter.moveAssign memory this other

/-- Member `Get()` (Tools.h:86-88). -/
def AutoDeleter.Get (self : AutoDeleter) : Nat :=
  self.Object

/-- Member `operator !()` (Tools.h:90-92). -/
def AutoDeleter.not (self : AutoDeleter) : Bool :=
  self.Object == VK_NULL_HANDLE

/-! ## Properties of the image layout transitions -/

theorem setSrcAccessMask_fields (b : VkImageMemoryBarrier) (oldImageLayout : VkImageLayout) :
    (setSrcAccessMask b oldImageLayout).sType = b.sType ∧
    (setSrcAccessMask b oldImageLayout).pNext = b.pNext ∧
    (setSrcAccessMask b oldImageLayout).dstAccessMask = b.dstAccessMask ∧
    (setSrcAccessMask b oldImageLayout).oldLayout = b.oldLayout ∧
    (setSrcAccessMask b oldImageLayout).newLayout = b.newLayout ∧
    (setSrcAccessMask b oldImageLayout).srcQueueFamilyIndex = b.srcQueueFamilyIndex ∧
    (setSrcAccessMask b oldImageLayout).dstQueueFamilyIndex = b.dstQueueFamilyIndex ∧
    (setSrcAccessMask b oldImageLayout).image = b.image ∧
    (setSrcAccessMask b oldImageLayout).subresourceRange = b.subresourceRange := by
  unfold setSrcAccessMask
  split_ifs <;> simp

theorem setDstAccessMask_fields (b : VkImageMemoryBarrier) (newImageLayout : VkImageLayout) :
    (setDstAccessMask b newImageLayout).sType = b.sType ∧
    (setDstAccessMask b newImageLayout).pNext = b.pNext ∧
    (setDstAccessMask b newImageLayout).oldLayout = b.oldLayout ∧
    (setDstAccessMask b newImageLayout).newLayout = b.newLayout ∧
    (setDstAccessMask b newImageLayout).srcQueueFamilyIndex = b.srcQueueFamilyIndex ∧
    (setDstAccessMask b newImageLayout).dstQueueFamilyIndex = b.dstQueueFamilyIndex ∧
    (setDstAccessMask b newImageLayout).image = b.image ∧
    (setDstAccessMask b newImageLayout).subresourceRange = b.subresourceRange := by
  unfold setDstAccessMask
  split_ifs <;> simp

/-- The source mask the first `switch` leaves does not depend on the other
fields of the record it is applied to. -/
theorem setSrcAccessMask_srcAccessMask (b c : VkImageMemoryBarrier)
    (oldImageLayout : VkImageLayout) (h : b.srcAccessMask = c.srcAccessMask) :
    (setSrcAccessMask b oldImageLayout).srcAccessMask =
      (setSrcAccessMask c oldImageLayout).srcAccessMask := by
  unfold setSrcAccessMask
  split_ifs <;> simp [h]

/-- The source mask the second `switch` leaves: widened exactly when the
image enters `SHADER_READ_ONLY_OPTIMAL` with an empty source mask. -/
theorem setDstAccessMask_srcAccessMask (b : VkImageMemoryBarrier)
    (newImageLayout : VkImageLayout) :
    (setDstAccessMask b newImageLayout).srcAccessMask =
      if newImageLayout = VK_IMAGE_LAYOUT_SHADER_READ_ONLY_OPTIMAL ∧ b.srcAccessMask = 0 then
        VK_ACCESS_HOST_WRITE_BIT ||| VK_ACCESS_TRANSFER_WRITE_BIT
      else b.srcAccessMask := by
  unfold setDstAccessMask
  split_ifs <;> simp_all <;> first | rfl | (exfalso; simp_all [VK_IMAGE_LAYOUT_SHADER_READ_ONLY_OPTIMAL, VK_IMAGE_LAYOUT_TRANSFER_DST_OPTIMAL, VK_IMAGE_LAYOUT_TRANSFER_SRC_OPTIMAL, VK_IMAGE_LAYOUT_COLOR_ATTACHMENT_OPTIMAL, VK_IMAGE_LAYOUT_DEPTH_STENCIL_ATTACHMENT_OPTIMAL])

/-- The destination mask the second `switch` leaves for a new layout the
specification's table lists, given a record whose destination mask is
still empty. -/
theorem setDstAccessMask_dstAccessMask (b : VkImageMemoryBarrier)
    (newImageLayout : VkImageLayout) (hb : b.dstAccessMask = 0)
    (hnew : newImageLayout ∈ specNewLayouts) :
    some (setDstAccessMask b newImageLayout).dstAccessMask =
      specRequiredAccess newImageLayout := by
  simp only [specNewLayouts, List.mem_cons, List.mem_singleton, List.not_mem_nil,
    or_false] at hnew
  rcases hnew with h | h | h | h | h <;> subst h <;>
    simp [setDstAccessMask, specRequiredAccess, hb, VK_IMAGE_LAYOUT_TRANSFER_DST_OPTIMAL,
      VK_IMAGE_LAYOUT_TRANSFER_SRC_OPTIMAL, VK_IMAGE_LAYOUT_COLOR_ATTACHMENT_OPTIMAL,
      VK_IMAGE_LAYOUT_DEPTH_STENCIL_ATTACHMENT_OPTIMAL,
      VK_IMAGE_LAYOUT_SHADER_READ_ONLY_OPTIMAL]

/-- The source mask the first `switch` leaves for an old layout the
specification's table lists. -/
theorem setSrcAccessMask_listed (b : VkImageMemoryBarrier)
    (oldImageLayout : VkImageLayout) (hold : oldImageLayout ∈ specOldLayouts) :
    some (setSrcAccessMask b oldImageLayout).srcAccessMask =
      specFinishedAccess oldImageLayout := by
  simp only [specOldLayouts, List.mem_cons, List.mem_singleton, List.not_mem_nil,
    or_false] at hold
  rcases hold with h | h | h | h | h | h | h <;> subst h <;>
    simp [setSrcAccessMask, specFinishedAccess, VK_IMAGE_LAYOUT_TRANSFER_DST_OPTIMAL,
      VK_IMAGE_LAYOUT_TRANSFER_SRC_OPTIMAL, VK_IMAGE_LAYOUT_COLOR_ATTACHMENT_OPTIMAL,
      VK_IMAGE_LAYOUT_DEPTH_STENCIL_ATTACHMENT_OPTIMAL,
      VK_IMAGE_LAYOUT_SHADER_READ_ONLY_OPTIMAL, VK_IMAGE_LAYOUT_UNDEFINED,
      VK_IMAGE_LAYOUT_PREINITIALIZED]

/-- The source mask the first `switch` leaves for an old layout the
specification's table does not list: the one the record came with. -/
theorem setSrcAccessMask_unlisted (b : VkImageMemoryBarrier)
    (oldImageLayout : VkImageLayout) (hold : specFinishedAccess oldImageLayout = none) :
    setSrcAccessMask b oldImageLayout = b := by
  unfold specFinishedAccess at hold
  unfold setSrcAccessMask
  split_ifs at hold ⊢
  rfl

/-- The second `switch` leaves the record as it came for a new layout the
specification's table does not list. -/
theorem setDstAccessMask_unlisted (b : VkImageMemoryBarrier)
    (newImageLayout : VkImageLayout) (hnew : specRequiredAccess newImageLayout = none) :
    setDstAccessMask b newImageLayout = b := by
  unfold specRequiredAccess at hnew
  unfold setDstAccessMask
  split_ifs at hnew ⊢
  rfl

/-- A listed old layout has an empty finished-access mask only if it is
`UNDEFINED`. -/
theorem specFinishedAccess_eq_zero (oldImageLayout : VkImageLayout)
    (h : specFinishedAccess oldImageLayout = some 0) :
    oldImageLayout = VK_IMAGE_LAYOUT_UNDEFINED := by
  unfold specFinishedAccess at h
  split_ifs at h with h0 <;>
    first
      | exact h0
      | (exfalso; revert h; simp [VK_ACCESS_HOST_WRITE_BIT, VK_ACCESS_COLOR_ATTACHMENT_WRITE_BIT,
          VK_ACCESS_DEPTH_STENCIL_ATTACHMENT_WRITE_BIT, VK_ACCESS_TRANSFER_READ_BIT,
          VK_ACCESS_TRANSFER_WRITE_BIT, VK_ACCESS_SHADER_READ_BIT])

/-- Two barrier records with equal fields are equal. -/
theorem VkImageMemoryBarrier_eq_of_fields (x y : VkImageMemoryBarrier)
    (h1 : x.sType = y.sType) (h2 : x.pNext = y.pNext)
    (h3 : x.srcAccessMask = y.srcAccessMask) (h4 : x.dstAccessMask = y.dstAccessMask)
    (h5 : x.oldLayout = y.oldLayout) (h6 : x.newLayout = y.newLayout)
    (h7 : x.srcQueueFamilyIndex = y.srcQueueFamilyIndex)
    (h8 : x.dstQueueFamilyIndex = y.dstQueueFamilyIndex)
    (h9 : x.image = y.image) (h10 : x.subresourceRange = y.subresourceRange) : x = y := by
  cases x
  cases y
  simp_all

/-- The source mask the first `switch` leaves for an old layout with an
entry in the finished-access table is that entry. -/
theorem setSrcAccessMask_of_some (b : VkImageMemoryBarrier) (oldImageLayout : VkImageLayout)
    (finished : VkAccessFlags) (h : specFinishedAccess oldImageLayout = some finished) :
    (setSrcAccessMask b oldImageLayout).srcAccessMask = finished := by
  unfold specFinishedAccess at h
  unfold setSrcAccessMask
  split_ifs at h ⊢ <;> simp_all

/-- The destination mask the second `switch` leaves for a new layout with
an entry in the required-access table is that entry, given a record whose
destination mask is still empty. -/
theorem setDstAccessMask_of_some (b : VkImageMemoryBarrier) (newImageLayout : VkImageLayout)
    (required : VkAccessFlags) (hb : b.dstAccessMask = 0)
    (h : specRequiredAccess newImageLayout = some required) :
    (setDstAccessMask b newImageLayout).dstAccessMask = required := by
  unfold specRequiredAccess at h
  unfold setDstAccessMask
  split_ifs at h ⊢ <;> simp_all

/-- The masks the specification's table derives, unfolded. -/
theorem specDerivedMasks_eq_some (oldLayout newLayout : VkImageLayout)
    (srcAccessMask dstAccessMask : VkAccessFlags)
    (h : specDerivedMasks oldLayout newLayout = some (srcAccessMask, dstAccessMask)) :
    ∃ finished, specFinishedAccess oldLayout = some finished ∧
      specRequiredAccess newLayout = some dstAccessMask ∧
      srcAccessMask =
        if newLayout = VK_IMAGE_LAYOUT_SHADER_READ_ONLY_OPTIMAL ∧ finished = 0 then
          VK_ACCESS_HOST_WRITE_BIT ||| VK_ACCESS_TRANSFER_WRITE_BIT
        else finished := by
  unfold specDerivedMasks at h
  cases hf : specFinishedAccess oldLayout with
  | none => simp [hf] at h
  | some finished =>
    cases hr : specRequiredAccess newLayout with
    | none => simp [hf, hr] at h
    | some required =>
      simp only [hf, hr] at h
      refine ⟨finished, rfl, ?_, ?_⟩
      · split_ifs at h <;> simp_all
      · split_ifs at h ⊢ <;> simp_all


/-- C1 (golden table). For every old layout and every new layout the
specification's table lists, `setImageLayout` records one barrier whose
`dstAccessMask` is the required access of the new layout and whose
`srcAccessMask` is the finished access of the old layout, the sole
exception being `UNDEFINED -> SHADER_READ_ONLY_OPTIMAL`, where the empty
source mask is recorded as `HOST_WRITE | TRANSFER_WRITE`. The initial
record is assumed to come with an empty destination mask. -/
theorem setImageLayout_golden_table (init : VkImageMemoryBarrier)
    (cmdbuffer : VkCommandBuffer) (image : VkImage)
    (oldImageLayout newImageLayout : VkImageLayout)
    (subresourceRange : VkImageSubresourceRange)
    (srcStageMask dstStageMask : VkPipelineStageFlags)
    (hinit : init.dstAccessMask = 0)
    (hold : oldImageLayout ∈ specOldLayouts)
    (hnew : newImageLayout ∈ specNewLayouts) :
    ∃ barrier : VkImageMemoryBarrier,
      setImageLayout init cmdbuffer image oldImageLayout newImageLayout subresourceRange
          srcStageMask dstStageMask =
        cmdbuffer ++ [Command.pipelineBarrier srcStageMask dstStageMask 0 [] [] [barrier]] ∧
      some barrier.dstAccessMask = specRequiredAccess newImageLayout ∧
      (¬ (oldImageLayout = VK_IMAGE_LAYOUT_UNDEFINED ∧
            newImageLayout = VK_IMAGE_LAYOUT_SHADER_READ_ONLY_OPTIMAL) →
        some barrier.srcAccessMask = specFinishedAccess oldImageLayout) ∧
      (oldImageLayout = VK_IMAGE_LAYOUT_UNDEFINED ∧
            newImageLayout = VK_IMAGE_LAYOUT_SHADER_READ_ONLY_OPTIMAL →
        barrier.srcAccessMask = VK_ACCESS_HOST_WRITE_BIT ||| VK_ACCESS_TRANSFER_WRITE_BIT) := by
  refine ⟨setImageLayoutBarrier init image oldImageLayout newImageLayout subresourceRange,
    rfl, ?_, ?_, ?_⟩
  · unfold setImageLayoutBarrier
    apply setDstAccessMask_dstAccessMask _ _ _ hnew
    rw [(setSrcAccessMask_fields _ _).2.2.1]
    exact hinit
  · intro hne
    have hsrc := setSrcAccessMask_listed
      { init with oldLayout := oldImageLayout, newLayout := newImageLayout, image := image,
                  subresourceRange := subresourceRange } oldImageLayout hold
    unfold setImageLayoutBarrier
    rw [setDstAccessMask_srcAccessMask]
    split_ifs with hw
    · exfalso
      apply hne
      refine ⟨specFinishedAccess_eq_zero _ ?_, hw.1⟩
      rw [← hsrc, hw.2]
    · exact hsrc
  · rintro ⟨ho, hn⟩
    subst ho hn
    rfl

/-- C1 at `TRANSFER_DST_OPTIMAL -> SHADER_READ_ONLY_OPTIMAL`, recorded after
one earlier command. -/
theorem setImageLayout_golden_table_witness :
    zeroImageMemoryBarrier.dstAccessMask = 0 ∧
    VK_IMAGE_LAYOUT_TRANSFER_DST_OPTIMAL ∈ specOldLayouts ∧
    VK_IMAGE_LAYOUT_SHADER_READ_ONLY_OPTIMAL ∈ specNewLayouts ∧
    ∃ barrier : VkImageMemoryBarrier,
      setImageLayout zeroImageMemoryBarrier [Command.other 3] 7
          VK_IMAGE_LAYOUT_TRANSFER_DST_OPTIMAL VK_IMAGE_LAYOUT_SHADER_READ_ONLY_OPTIMAL
          ⟨1, 0, 1, 0, 1⟩ 4096 128 =
        [Command.other 3] ++ [Command.pipelineBarrier 4096 128 0 [] [] [barrier]] ∧
      some barrier.dstAccessMask =
        specRequiredAccess VK_IMAGE_LAYOUT_SHADER_READ_ONLY_OPTIMAL ∧
      (¬ (VK_IMAGE_LAYOUT_TRANSFER_DST_OPTIMAL = VK_IMAGE_LAYOUT_UNDEFINED ∧
            VK_IMAGE_LAYOUT_SHADER_READ_ONLY_OPTIMAL =
              VK_IMAGE_LAYOUT_SHADER_READ_ONLY_OPTIMAL) →
        some barrier.srcAccessMask =
          specFinishedAccess VK_IMAGE_LAYOUT_TRANSFER_DST_OPTIMAL) ∧
      (VK_IMAGE_LAYOUT_TRANSFER_DST_OPTIMAL = VK_IMAGE_LAYOUT_UNDEFINED ∧
            VK_IMAGE_LAYOUT_SHADER_READ_ONLY_OPTIMAL =
              VK_IMAGE_LAYOUT_SHADER_READ_ONLY_OPTIMAL →
        barrier.srcAccessMask = VK_ACCESS_HOST_WRITE_BIT ||| VK_ACCESS_TRANSFER_WRITE_BIT) :=
  ⟨rfl, by decide, by decide,
    setImageLayout_golden_table zeroImageMemoryBarrier [Command.other 3] 7
      VK_IMAGE_LAYOUT_TRANSFER_DST_OPTIMAL VK_IMAGE_LAYOUT_SHADER_READ_ONLY_OPTIMAL
      ⟨1, 0, 1, 0, 1⟩ 4096 128 rfl (by decide) (by decide)⟩

/-- C2 (defensive widening). For every old layout, with `computed` the
source mask the first `switch` leaves: when the new layout is
`SHADER_READ_ONLY_OPTIMAL` and `computed` is empty the recorded
`srcAccessMask` is exactly `HOST_WRITE | TRANSFER_WRITE`; when `computed`
is not empty it is recorded unchanged; for every other new layout it is
recorded unchanged (so `UNDEFINED -> TRANSFER_DST_OPTIMAL` records `0`);
and every barrier into `SHADER_READ_ONLY_OPTIMAL` has a non-empty
`srcAccessMask` and `dstAccessMask = SHADER_READ`. -/
theorem setImageLayout_defensive_widening (init : VkImageMemoryBarrier)
    (cmdbuffer : VkCommandBuffer) (image : VkImage)
    (oldImageLayout newImageLayout : VkImageLayout)
    (subresourceRange : VkImageSubresourceRange)
    (srcStageMask dstStageMask : VkPipelineStageFlags) :
    ∃ barrier : VkImageMemoryBarrier,
      setImageLayout init cmdbuffer image oldImageLayout newImageLayout subresourceRange
          srcStageMask dstStageMask =
        cmdbuffer ++ [Command.pipelineBarrier srcStageMask dstStageMask 0 [] [] [barrier]] ∧
      (newImageLayout = VK_IMAGE_LAYOUT_SHADER_READ_ONLY_OPTIMAL →
        (setSrcAccessMask init oldImageLayout).srcAccessMask = 0 →
        barrier.srcAccessMask = VK_ACCESS_HOST_WRITE_BIT ||| VK_ACCESS_TRANSFER_WRITE_BIT) ∧
      (newImageLayout = VK_IMAGE_LAYOUT_SHADER_READ_ONLY_OPTIMAL →
        (setSrcAccessMask init oldImageLayout).srcAccessMask ≠ 0 →
        barrier.srcAccessMask = (setSrcAccessMask init oldImageLayout).srcAccessMask) ∧
      (newImageLayout ≠ VK_IMAGE_LAYOUT_SHADER_READ_ONLY_OPTIMAL →
        barrier.srcAccessMask = (setSrcAccessMask init oldImageLayout).srcAccessMask) ∧
      (oldImageLayout = VK_IMAGE_LAYOUT_UNDEFINED →
        newImageLayout = VK_IMAGE_LAYOUT_TRANSFER_DST_OPTIMAL → barrier.srcAccessMask = 0) ∧
      (newImageLayout = VK_IMAGE_LAYOUT_SHADER_READ_ONLY_OPTIMAL →
        barrier.srcAccessMask ≠ 0 ∧ barrier.dstAccessMask = VK_ACCESS_SHADER_READ_BIT) := by
  have hcomp : (setSrcAccessMask
        { init with oldLayout := oldImageLayout, newLayout := newImageLayout, image := image,
                    subresourceRange := subresourceRange } oldImageLayout).srcAccessMask =
      (setSrcAccessMask init oldImageLayout).srcAccessMask :=
    setSrcAccessMask_srcAccessMask _ _ _ rfl
  have hsrc : (setImageLayoutBarrier init image oldImageLayout newImageLayout
        subresourceRange).srcAccessMask =
      if newImageLayout = VK_IMAGE_LAYOUT_SHADER_READ_ONLY_OPTIMAL ∧
          (setSrcAccessMask init oldImageLayout).srcAccessMask = 0 then
        VK_ACCESS_HOST_WRITE_BIT ||| VK_ACCESS_TRANSFER_WRITE_BIT
      else (setSrcAccessMask init oldImageLayout).srcAccessMask := by
    unfold setImageLayoutBarrier
    rw [setDstAccessMask_srcAccessMask, hcomp]
  refine ⟨setImageLayoutBarrier init image oldImageLayout newImageLayout subresourceRange,
    rfl, ?_, ?_, ?_, ?_, ?_⟩
  · intro hn hz
    rw [hsrc, if_pos ⟨hn, hz⟩]
  · intro hn hz
    rw [hsrc, if_neg (fun h => hz h.2)]
  · intro hn
    rw [hsrc, if_neg (fun h => hn h.1)]
  · intro ho hn
    subst ho hn
    rw [hsrc]
    rfl
  · intro hn
    constructor
    · rw [hsrc]
      split_ifs with hw
      · decide
      · exact fun h => hw ⟨hn, h⟩
    · subst hn
      unfold setImageLayoutBarrier setDstAccessMask
      simp [VK_IMAGE_LAYOUT_SHADER_READ_ONLY_OPTIMAL, VK_IMAGE_LAYOUT_TRANSFER_DST_OPTIMAL,
        VK_IMAGE_LAYOUT_TRANSFER_SRC_OPTIMAL, VK_IMAGE_LAYOUT_COLOR_ATTACHMENT_OPTIMAL,
        VK_IMAGE_LAYOUT_DEPTH_STENCIL_ATTACHMENT_OPTIMAL]

/-- C3, as stated, fails: `GENERAL` has no entry in the finished-access
table, yet `setImageLayout` for `GENERAL -> TRANSFER_DST_OPTIMAL` appends a
barrier to the command buffer, and the barrier carries the empty source
mask the initial record came with. -/
theorem setImageLayout_unsupported_still_records :
    specFinishedAccess VK_IMAGE_LAYOUT_GENERAL = none ∧
    setImageLayout zeroImageMemoryBarrier [] 7 VK_IMAGE_LAYOUT_GENERAL
        VK_IMAGE_LAYOUT_TRANSFER_DST_OPTIMAL ⟨1, 0, 1, 0, 1⟩
        VK_PIPELINE_STAGE_ALL_COMMANDS_BIT VK_PIPELINE_STAGE_ALL_COMMANDS_BIT =
      [Command.pipelineBarrier VK_PIPELINE_STAGE_ALL_COMMANDS_BIT
        VK_PIPELINE_STAGE_ALL_COMMANDS_BIT 0 [] []
        [{ sType := 0, pNext := 0, srcAccessMask := 0,
           dstAccessMask := VK_ACCESS_TRANSFER_WRITE_BIT,
           oldLayout := VK_IMAGE_LAYOUT_GENERAL,
           newLayout := VK_IMAGE_LAYOUT_TRANSFER_DST_OPTIMAL,
           srcQueueFamilyIndex := 0, dstQueueFamilyIndex := 0, image := 7,
           subresourceRange := ⟨1, 0, 1, 0, 1⟩ }]] ∧
    setImageLayout zeroImageMemoryBarrier [] 7 VK_IMAGE_LAYOUT_GENERAL
        VK_IMAGE_LAYOUT_TRANSFER_DST_OPTIMAL ⟨1, 0, 1, 0, 1⟩
        VK_PIPELINE_STAGE_ALL_COMMANDS_BIT VK_PIPELINE_STAGE_ALL_COMMANDS_BIT ≠ [] := by
  refine ⟨by decide, by decide, by decide⟩

/-- C3, amended. For every pair, also one whose old layout has no entry
in the finished-access table or whose new layout has no entry in the
required-access table, `setImageLayout` appends exactly one pipeline
barrier with one image barrier and has no failure to report: an old
layout without entry leaves `srcAccessMask` as the initial record gave
it (replaced by `HOST_WRITE | TRANSFER_WRITE` when that is empty and the
new layout is `SHADER_READ_ONLY_OPTIMAL`), and a new layout without entry
leaves `dstAccessMask` as the initial record gave it. -/
theorem setImageLayout_unsupported_transition (init : VkImageMemoryBarrier)
    (cmdbuffer : VkCommandBuffer) (image : VkImage)
    (oldImageLayout newImageLayout : VkImageLayout)
    (subresourceRange : VkImageSubresourceRange)
    (srcStageMask dstStageMask : VkPipelineStageFlags) :
    ∃ barrier : VkImageMemoryBarrier,
      setImageLayout init cmdbuffer image oldImageLayout newImageLayout subresourceRange
          srcStageMask dstStageMask =
        cmdbuffer ++ [Command.pipelineBarrier srcStageMask dstStageMask 0 [] [] [barrier]] ∧
      (specFinishedAccess oldImageLayout = none →
        barrier.srcAccessMask =
          if newImageLayout = VK_IMAGE_LAYOUT_SHADER_READ_ONLY_OPTIMAL ∧
              init.srcAccessMask = 0 then
            VK_ACCESS_HOST_WRITE_BIT ||| VK_ACCESS_TRANSFER_WRITE_BIT
          else init.srcAccessMask) ∧
      (specRequiredAccess newImageLayout = none →
        barrier.dstAccessMask = init.dstAccessMask) := by
  refine ⟨setImageLayoutBarrier init image oldImageLayout newImageLayout subresourceRange,
    rfl, ?_, ?_⟩
  · intro ho
    unfold setImageLayoutBarrier
    rw [setDstAccessMask_srcAccessMask, setSrcAccessMask_unlisted _ _ ho]
  · intro hn
    unfold setImageLayoutBarrier
    rw [setDstAccessMask_unlisted _ _ hn, (setSrcAccessMask_fields _ _).2.2.1]

/-- C4 (entry-point equivalence). For every pair of the transition table,
the commands `setImageLayout` records are exactly the commands
`insertImageMemoryBarrier` records when it is given the access masks the
table derives for the pair, and the two barrier records are equal. The
initial record is assumed to come with an empty destination mask. -/
theorem setImageLayout_eq_insertImageMemoryBarrier (init : VkImageMemoryBarrier)
    (cmdbuffer : VkCommandBuffer) (image : VkImage)
    (oldImageLayout newImageLayout : VkImageLayout)
    (subresourceRange : VkImageSubresourceRange)
    (srcStageMask dstStageMask : VkPipelineStageFlags)
    (srcAccessMask dstAccessMask : VkAccessFlags)
    (hinit : init.dstAccessMask = 0)
    (htable : specDerivedMasks oldImageLayout newImageLayout =
      some (srcAccessMask, dstAccessMask)) :
    setImageLayoutBarrier init image oldImageLayout newImageLayout subresourceRange =
      insertImageMemoryBarrierRecord init image srcAccessMask dstAccessMask
        oldImageLayout newImageLayout subresourceRange ∧
    setImageLayout init cmdbuffer image oldImageLayout newImageLayout subresourceRange
        srcStageMask dstStageMask =
      insertImageMemoryBarrier init cmdbuffer image srcAccessMask dstAccessMask
        oldImageLayout newImageLayout srcStageMask dstStageMask subresourceRange := by
  have hrec : setImageLayoutBarrier init image oldImageLayout newImageLayout
        subresourceRange =
      insertImageMemoryBarrierRecord init image srcAccessMask dstAccessMask
        oldImageLayout newImageLayout subresourceRange := by
    obtain ⟨finished, hf, hr, hsrc⟩ := specDerivedMasks_eq_some _ _ _ _ htable
    have hfields := setDstAccessMask_fields (setSrcAccessMask
      { init with oldLayout := oldImageLayout, newLayout := newImageLayout, image := image,
                  subresourceRange := subresourceRange } oldImageLayout) newImageLayout
    have hfields0 := setSrcAccessMask_fields
      { init with oldLayout := oldImageLayout, newLayout := newImageLayout, image := image,
                  subresourceRange := subresourceRange } oldImageLayout
    apply VkImageMemoryBarrier_eq_of_fields
    · exact hfields.1.trans hfields0.1
    · exact hfields.2.1.trans hfields0.2.1
    · unfold setImageLayoutBarrier
      rw [setDstAccessMask_srcAccessMask, setSrcAccessMask_of_some _ _ _ hf, hsrc]
      rfl
    · unfold setImageLayoutBarrier
      exact setDstAccessMask_of_some _ _ _ (hfields0.2.2.1.trans hinit) hr
    · exact hfields.2.2.1.trans hfields0.2.2.2.1
    · exact hfields.2.2.2.1.trans hfields0.2.2.2.2.1
    · exact hfields.2.2.2.2.1.trans hfields0.2.2.2.2.2.1
    · exact hfields.2.2.2.2.2.1.trans hfields0.2.2.2.2.2.2.1
    · exact hfields.2.2.2.2.2.2.1.trans hfields0.2.2.2.2.2.2.2.1
    · exact hfields.2.2.2.2.2.2.2.trans hfields0.2.2.2.2.2.2.2.2
  exact ⟨hrec, by unfold setImageLayout insertImageMemoryBarrier; rw [hrec]⟩

/-- C4 at `UNDEFINED -> SHADER_READ_ONLY_OPTIMAL`, the pair with the widened
source mask. -/
theorem setImageLayout_eq_insertImageMemoryBarrier_witness :
    zeroImageMemoryBarrier.dstAccessMask = 0 ∧
    specDerivedMasks VK_IMAGE_LAYOUT_UNDEFINED VK_IMAGE_LAYOUT_SHADER_READ_ONLY_OPTIMAL =
      some (VK_ACCESS_HOST_WRITE_BIT ||| VK_ACCESS_TRANSFER_WRITE_BIT,
        VK_ACCESS_SHADER_READ_BIT) ∧
    setImageLayoutBarrier zeroImageMemoryBarrier 7 VK_IMAGE_LAYOUT_UNDEFINED
        VK_IMAGE_LAYOUT_SHADER_READ_ONLY_OPTIMAL ⟨1, 0, 1, 0, 1⟩ =
      insertImageMemoryBarrierRecord zeroImageMemoryBarrier 7
        (VK_ACCESS_HOST_WRITE_BIT ||| VK_ACCESS_TRANSFER_WRITE_BIT) VK_ACCESS_SHADER_READ_BIT
        VK_IMAGE_LAYOUT_UNDEFINED VK_IMAGE_LAYOUT_SHADER_READ_ONLY_OPTIMAL ⟨1, 0, 1, 0, 1⟩ ∧
    setImageLayout zeroImageMemoryBarrier [Command.other 3] 7 VK_IMAGE_LAYOUT_UNDEFINED
        VK_IMAGE_LAYOUT_SHADER_READ_ONLY_OPTIMAL ⟨1, 0, 1, 0, 1⟩ 4096 128 =
      insertImageMemoryBarrier zeroImageMemoryBarrier [Command.other 3] 7
        (VK_ACCESS_HOST_WRITE_BIT ||| VK_ACCESS_TRANSFER_WRITE_BIT) VK_ACCESS_SHADER_READ_BIT
        VK_IMAGE_LAYOUT_UNDEFINED VK_IMAGE_LAYOUT_SHADER_READ_ONLY_OPTIMAL 4096 128
        ⟨1, 0, 1, 0, 1⟩ :=
  ⟨rfl, by decide,
    setImageLayout_eq_insertImageMemoryBarrier zeroImageMemoryBarrier [Command.other 3] 7
      VK_IMAGE_LAYOUT_UNDEFINED VK_IMAGE_LAYOUT_SHADER_READ_ONLY_OPTIMAL ⟨1, 0, 1, 0, 1⟩
      4096 128 (VK_ACCESS_HOST_WRITE_BIT ||| VK_ACCESS_TRANSFER_WRITE_BIT)
      VK_ACCESS_SHADER_READ_BIT rfl (by decide)⟩

/-- C5 (frame and effect). One call of `setImageLayout` or of
`insertImageMemoryBarrier` appends exactly one pipeline-barrier command
with the stage masks passed in, dependency flags `0`, no memory barrier,
no buffer barrier and exactly one image barrier, whose `oldLayout`,
`newLayout`, `image` and `subresourceRange` are the arguments (and, for
`insertImageMemoryBarrier`, whose access masks are the arguments); the
commands recorded before the call stay as they were, in the same order. -/
theorem barrier_call_appends_one_command (init : VkImageMemoryBarrier)
    (cmdbuffer : VkCommandBuffer) (image : VkImage)
    (oldImageLayout newImageLayout : VkImageLayout)
    (subresourceRange : VkImageSubresourceRange)
    (srcStageMask dstStageMask : VkPipelineStageFlags)
    (srcAccessMask dstAccessMask : VkAccessFlags) :
    (∃ barrier : VkImageMemoryBarrier,
      setImageLayout init cmdbuffer image oldImageLayout newImageLayout subresourceRange
          srcStageMask dstStageMask =
        cmdbuffer ++ [Command.pipelineBarrier srcStageMask dstStageMask 0 [] [] [barrier]] ∧
      barrier.oldLayout = oldImageLayout ∧ barrier.newLayout = newImageLayout ∧
      barrier.image = image ∧ barrier.subresourceRange = subresourceRange) ∧
    (∃ barrier : VkImageMemoryBarrier,
      insertImageMemoryBarrier init cmdbuffer image srcAccessMask dstAccessMask
          oldImageLayout newImageLayout srcStageMask dstStageMask subresourceRange =
        cmdbuffer ++ [Command.pipelineBarrier srcStageMask dstStageMask 0 [] [] [barrier]] ∧
      barrier.oldLayout = oldImageLayout ∧ barrier.newLayout = newImageLayout ∧
      barrier.image = image ∧ barrier.subresourceRange = subresourceRange ∧
      barrier.srcAccessMask = srcAccessMask ∧ barrier.dstAccessMask = dstAccessMask) ∧
    (setImageLayout init cmdbuffer image oldImageLayout newImageLayout subresourceRange
        srcStageMask dstStageMask).length = cmdbuffer.length + 1 ∧
    (setImageLayout init cmdbuffer image oldImageLayout newImageLayout subresourceRange
        srcStageMask dstStageMask).take cmdbuffer.length = cmdbuffer ∧
    (insertImageMemoryBarrier init cmdbuffer image srcAccessMask dstAccessMask
        oldImageLayout newImageLayout srcStageMask dstStageMask subresourceRange).length =
      cmdbuffer.length + 1 ∧
    (insertImageMemoryBarrier init cmdbuffer image srcAccessMask dstAccessMask
        oldImageLayout newImageLayout srcStageMask dstStageMask subresourceRange).take
        cmdbuffer.length = cmdbuffer := by
  have hfields := setDstAccessMask_fields (setSrcAccessMask
    { init with oldLayout := oldImageLayout, newLayout := newImageLayout, image := image,
                subresourceRange := subresourceRange } oldImageLayout) newImageLayout
  have hfields0 := setSrcAccessMask_fields
    { init with oldLayout := oldImageLayout, newLayout := newImageLayout, image := image,
                subresourceRange := subresourceRange } oldImageLayout
  refine ⟨⟨setImageLayoutBarrier init image oldImageLayout newImageLayout subresourceRange,
      rfl, ?_, ?_, ?_, ?_⟩,
    ⟨insertImageMemoryBarrierRecord init image srcAccessMask dstAccessMask oldImageLayout
      newImageLayout subresourceRange, rfl, rfl, rfl, rfl, rfl, rfl, rfl⟩, ?_, ?_, ?_, ?_⟩
  · exact hfields.2.2.1.trans hfields0.2.2.2.1
  · exact hfields.2.2.2.1.trans hfields0.2.2.2.2.1
  · exact hfields.2.2.2.2.2.2.1.trans hfields0.2.2.2.2.2.2.2.1
  · exact hfields.2.2.2.2.2.2.2.trans hfields0.2.2.2.2.2.2.2.2
  · simp [setImageLayout, vkCmdPipelineBarrier]
  · simp [setImageLayout, vkCmdPipelineBarrier]
  · simp [insertImageMemoryBarrier, vkCmdPipelineBarrier]
  · simp [insertImageMemoryBarrier, vkCmdPipelineBarrier]

/-- C6 (convenience form). The aspect-mask overload of `setImageLayout`
called without stage masks records exactly what the general
`setImageLayout` records for the subresource range
`{aspectMask, baseMipLevel 0, levelCount 1, baseArrayLayer 0, layerCount 1}`
with both stage masks `ALL_COMMANDS`; stage masks that are given are
passed through unchanged (a missing destination stage mask alone being
`ALL_COMMANDS`). -/
theorem setImageLayoutAspect_eq_setImageLayout (init : VkImageMemoryBarrier)
    (cmdbuffer : VkCommandBuffer) (image : VkImage) (aspectMask : VkImageAspectFlags)
    (oldImageLayout newImageLayout : VkImageLayout)
    (srcStageMask dstStageMask : VkPipelineStageFlags) :
    setImageLayoutAspect_noStages init cmdbuffer image aspectMask oldImageLayout
        newImageLayout =
      setImageLayout init cmdbuffer image oldImageLayout newImageLayout
        { aspectMask := aspectMask, baseMipLevel := 0, levelCount := 1, baseArrayLayer := 0,
          layerCount := 1 }
        VK_PIPELINE_STAGE_ALL_COMMANDS_BIT VK_PIPELINE_STAGE_ALL_COMMANDS_BIT ∧
    setImageLayoutAspect init cmdbuffer image aspectMask oldImageLayout newImageLayout
        srcStageMask dstStageMask =
      setImageLayout init cmdbuffer image oldImageLayout newImageLayout
        { aspectMask := aspectMask, baseMipLevel := 0, levelCount := 1, baseArrayLayer := 0,
          layerCount := 1 }
        srcStageMask dstStageMask ∧
    setImageLayoutAspect_srcStage init cmdbuffer image aspectMask oldImageLayout
        newImageLayout srcStageMask =
      setImageLayout init cmdbuffer image oldImageLayout newImageLayout
        { aspectMask := aspectMask, baseMipLevel := 0, levelCount := 1, baseArrayLayer := 0,
          layerCount := 1 }
        srcStageMask VK_PIPELINE_STAGE_ALL_COMMANDS_BIT ∧
    VK_PIPELINE_STAGE_ALL_COMMANDS_BIT = 0x00010000 :=
  ⟨rfl, rfl, rfl, rfl⟩

/-! ## Properties of `alignedSize` -/

/-- Masking a 32-bit value with the complement of `2 ^ k - 1` clears its
`k` low bits. -/
theorem and_not_low_mask (x k : Nat) (hx : x < 2 ^ 32) (hk : k ≤ 32) :
    x &&& (2 ^ 32 - 1 - (2 ^ k - 1)) = x / 2 ^ k * 2 ^ k := by
  have hpos : 0 < 2 ^ k := Nat.pow_pos (by norm_num)
  have hle : 2 ^ k ≤ 2 ^ 32 := Nat.pow_le_pow_right (by norm_num) hk
  have hm : 2 ^ 32 - 1 - (2 ^ k - 1) = 2 ^ 32 - ((2 ^ k - 1) + 1) := by omega
  rw [hm]
  apply Nat.eq_of_testBit_eq
  intro i
  rw [Nat.testBit_and, Nat.testBit_two_pow_sub_succ (by omega), Nat.testBit_two_pow_sub_one,
    Nat.mul_comm, Nat.testBit_mul_pow_two, ← Nat.shiftRight_eq_div_pow, Nat.testBit_shiftRight]
  by_cases hik : k ≤ i
  · have h1 : ¬ i < k := by omega
    have h2 : k + (i - k) = i := by omega
    by_cases hi : i < 32
    · simp [hik, h1, hi, h2]
    · have : x.testBit i = false :=
        Nat.testBit_lt_two_pow (lt_of_lt_of_le hx (Nat.pow_le_pow_right (by norm_num) (by omega)))
      simp [hik, h1, hi, h2, this]
  · have h1 : i < k := by omega
    simp [hik, h1]

/-- Without wrap-around `value + alignment - 1` is computed exactly. -/
theorem u32sub_u32add_one (v a : Nat) (ha : 0 < a) (h : v + a - 1 < 2 ^ 32) :
    u32sub (u32add v a) 1 = v + a - 1 := by
  unfold u32sub u32add
  norm_num at h ⊢
  omega

/-- The mask `~(alignment - 1)` for a power-of-two alignment. -/
theorem u32not_u32sub_one (k : Nat) (hk : k < 32) :
    u32not (u32sub (2 ^ k) 1) = 2 ^ 32 - 1 - (2 ^ k - 1) := by
  have hpos : 0 < 2 ^ k := Nat.pow_pos (by norm_num)
  have hlt : 2 ^ k < 2 ^ 32 := Nat.pow_lt_pow_right (by norm_num) hk
  unfold u32not u32sub
  generalize 2 ^ k = a at *
  norm_num at hlt ⊢
  omega

/-- Without wrap-around `alignedSize` rounds `value + alignment - 1` down
to a multiple of the alignment. -/
theorem alignedSize_eq_div_mul (v k : Nat) (hk : k < 32) (h : v + 2 ^ k - 1 < 2 ^ 32) :
    alignedSize v (2 ^ k) = (v + 2 ^ k - 1) / 2 ^ k * 2 ^ k := by
  have hpos : 0 < 2 ^ k := Nat.pow_pos (by norm_num)
  unfold alignedSize
  rw [u32sub_u32add_one v (2 ^ k) hpos h, u32not_u32sub_one k hk,
    and_not_low_mask _ k h (by omega)]

/-- Rounding `v + a - 1` down to a multiple of `a` gives the least multiple
of `a` that is at least `v`. -/
theorem div_mul_least (v a : Nat) (ha : 0 < a) :
    a ∣ (v + a - 1) / a * a ∧ v ≤ (v + a - 1) / a * a ∧
    ∀ m, a ∣ m → v ≤ m → (v + a - 1) / a * a ≤ m := by
  have h1 : (v + a - 1) / a * a ≤ v + a - 1 := Nat.div_mul_le_self _ _
  have h2 : v + a - 1 < (v + a - 1) / a * a + a := by
    have := Nat.lt_div_mul_add (a := v + a - 1) ha
    omega
  refine ⟨Nat.dvd_mul_left _ _, by omega, ?_⟩
  rintro m ⟨q, rfl⟩ hv
  rw [Nat.mul_comm a q]
  apply Nat.mul_le_mul_right
  by_contra hlt
  have hq : (q + 1) * a ≤ (v + a - 1) / a * a := Nat.mul_le_mul_right _ (by omega)
  have : (q + 1) * a = q * a + a := by ring
  have : a * q = q * a := Nat.mul_comm _ _
  omega

/-- With wrap-around (`value + alignment - 1` does not fit 32 bits) the
result of `alignedSize` is below the value, so the no-wrap condition of
the rounding property cannot be weakened. -/
theorem alignedSize_lt_of_wrap (v k : Nat) (hv : v < 2 ^ 32) (hk : k < 32)
    (hwrap : 2 ^ 32 ≤ v + 2 ^ k - 1) : alignedSize v (2 ^ k) < v := by
  have hlt : 2 ^ k < 2 ^ 32 := Nat.pow_lt_pow_right (by norm_num) hk
  have hsum : u32sub (u32add v (2 ^ k)) 1 = v + 2 ^ k - 1 - 2 ^ 32 := by
    unfold u32sub u32add
    generalize 2 ^ k = a at *
    norm_num at hv hlt hwrap ⊢
    omega
  unfold alignedSize
  rw [hsum, u32not_u32sub_one k hk, and_not_low_mask _ k (by omega) (by omega)]
  have := Nat.div_mul_le_self (v + 2 ^ k - 1 - 2 ^ 32) (2 ^ k)
  omega

/-- C7, as stated, fails: for the 32-bit value `2 ^ 32 - 1` and the
power-of-two alignment `8` the sum wraps, `alignedSize` returns `0`,
which is below the value. -/
theorem alignedSize_wraps :
    2 ^ 32 - 1 < 2 ^ 32 ∧ alignedSize (2 ^ 32 - 1) (2 ^ 3) = 0 ∧
    ¬ (2 ^ 32 - 1 ≤ alignedSize (2 ^ 32 - 1) (2 ^ 3)) := by
  refine ⟨by decide, by decide, by decide⟩

/-- C7, amended. For every 32-bit unsigned value `v` and every
power-of-two alignment `2 ^ k` (`k < 32`) with `v + 2 ^ k - 1 < 2 ^ 32`,
`alignedSize v (2 ^ k)` is the smallest multiple of the alignment that is
greater than or equal to `v`; in particular `alignedSize 13 8 = 16` and
`alignedSize 16 8 = 16`. -/
theorem alignedSize_least_multiple (v k : Nat) (hk : k < 32)
    (hnowrap : v + 2 ^ k - 1 < 2 ^ 32) :
    (2 ^ k ∣ alignedSize v (2 ^ k) ∧ v ≤ alignedSize v (2 ^ k) ∧
      ∀ m, 2 ^ k ∣ m → v ≤ m → alignedSize v (2 ^ k) ≤ m) ∧
    alignedSize 13 8 = 16 ∧ alignedSize 16 8 = 16 := by
  refine ⟨?_, by decide, by decide⟩
  rw [alignedSize_eq_div_mul v k hk hnowrap]
  exact div_mul_least v (2 ^ k) (Nat.pow_pos (by norm_num))

/-- C7, amended, at `v = 13` and alignment `2 ^ 3`. -/
theorem alignedSize_least_multiple_witness :
    3 < 32 ∧ 13 + 2 ^ 3 - 1 < 2 ^ 32 ∧
    (2 ^ 3 ∣ alignedSize 13 (2 ^ 3) ∧ 13 ≤ alignedSize 13 (2 ^ 3) ∧
      ∀ m, 2 ^ 3 ∣ m → 13 ≤ m → alignedSize 13 (2 ^ 3) ≤ m) ∧
    alignedSize 13 8 = 16 ∧ alignedSize 16 8 = 16 :=
  ⟨by decide, by decide, alignedSize_least_multiple 13 3 (by decide) (by decide)⟩

/-! ## Properties of the diagnostics -/

/-- C8. `errorString` returns, for each of the 23 result codes it
recognises, the code's symbolic name without the `VK_` prefix; no other
code gives the string of a recognised code (so distinct recognised codes
give distinct strings); and every other code, `VK_SUCCESS` included, gives
exactly `"UNKNOWN_ERROR"`. -/
theorem errorString_table :
    recognisedResults.length = 23 ∧
    (∀ p ∈ recognisedResults, "VK_" ++ errorString p.1 = p.2) ∧
    (∀ p ∈ recognisedResults, ∀ c : VkResult, errorString c = errorString p.1 → c = p.1) ∧
    (∀ c : VkResult, (∀ p ∈ recognisedResults, c ≠ p.1) → errorString c = "UNKNOWN_ERROR") ∧
    errorString VK_SUCCESS = "UNKNOWN_ERROR" := by
  have hunknown : ∀ c : VkResult, (∀ p ∈ recognisedResults, c ≠ p.1) →
      errorString c = "UNKNOWN_ERROR" := by
    intro c hc
    simp only [recognisedResults, List.mem_cons, List.mem_singleton, List.not_mem_nil,
      or_false, forall_eq_or_imp, forall_eq] at hc
    simp [errorString, hc]
  have hpair : ∀ p ∈ recognisedResults, ∀ q ∈ recognisedResults,
      errorString q.1 = errorString p.1 → q.1 = p.1 := by decide
  have hknown : ∀ p ∈ recognisedResults, errorString p.1 ≠ "UNKNOWN_ERROR" := by decide
  refine ⟨rfl, by decide, ?_, hunknown, by decide⟩
  intro p hp c h
  by_cases hc : ∃ q ∈ recognisedResults, c = q.1
  · obtain ⟨q, hq, rfl⟩ := hc
    exact hpair p hp q hq h
  · exfalso
    apply hknown p hp
    rw [← h]
    exact hunknown c (fun q hq hcq => hc ⟨q, hq, hcq⟩)

/-- C9. `physicalDeviceTypeString` returns exactly `OTHER`,
`INTEGRATED_GPU`, `DISCRETE_GPU`, `VIRTUAL_GPU` and `CPU` for the five
device types of those names, and exactly `"UNKNOWN_DEVICE_TYPE"` for every
other device-type value. -/
theorem physicalDeviceTypeString_table :
    physicalDeviceTypeString VK_PHYSICAL_DEVICE_TYPE_OTHER = "OTHER" ∧
    physicalDeviceTypeString VK_PHYSICAL_DEVICE_TYPE_INTEGRATED_GPU = "INTEGRATED_GPU" ∧
    physicalDeviceTypeString VK_PHYSICAL_DEVICE_TYPE_DISCRETE_GPU = "DISCRETE_GPU" ∧
    physicalDeviceTypeString VK_PHYSICAL_DEVICE_TYPE_VIRTUAL_GPU = "VIRTUAL_GPU" ∧
    physicalDeviceTypeString VK_PHYSICAL_DEVICE_TYPE_CPU = "CPU" ∧
    (∀ p ∈ recognisedDeviceTypes, physicalDeviceTypeString p.1 = p.2) ∧
    (∀ t : VkPhysicalDeviceType, (∀ p ∈ recognisedDeviceTypes, t ≠ p.1) →
      physicalDeviceTypeString t = "UNKNOWN_DEVICE_TYPE") := by
  refine ⟨by decide, by decide, by decide, by decide, by decide, by decide, ?_⟩
  intro t ht
  simp only [recognisedDeviceTypes, List.mem_cons, List.mem_singleton, List.not_mem_nil,
    or_false, forall_eq_or_imp, forall_eq] at ht
  simp [physicalDeviceTypeString, ht]

/-! ## Properties of the orthographic projection -/

/-- C10. Over exact rational arithmetic, for every input with
`right ≠ left`, `bottom ≠ top` and `near ≠ far`,
`GetOrthographicProjectionMatrix` is the 16-entry array with
`[0] = 2/(right-left)`, `[5] = 2/(bottom-top)`, `[10] = 1/(near-far)`,
`[12] = -(right+left)/(right-left)`, `[13] = -(bottom+top)/(bottom-top)`,
`[14] = near/(near-far)`, `[15] = 1` and every other entry `0`, each
quotient being a genuine one (multiplied by its divisor it gives back its
dividend); for left=-1, right=1, top=-1, bottom=1, near=0, far=10 the
entries are `[0] = 1`, `[5] = 1`, `[10] = -1/10`, `[14] = 0`. -/
theorem GetOrthographicProjectionMatrix_entries (left_plane right_plane top_plane
    bottom_plane near_plane far_plane : ℚ) (hwidth : right_plane ≠ left_plane)
    (hheight : bottom_plane ≠ top_plane) (hdepth : near_plane ≠ far_plane) :
    GetOrthographicProjectionMatrix left_plane right_plane top_plane bottom_plane
        near_plane far_plane =
      [2 / (right_plane - left_plane), 0, 0, 0,
       0, 2 / (bottom_plane - top_plane), 0, 0,
       0, 0, 1 / (near_plane - far_plane), 0,
       -(right_plane + left_plane) / (right_plane - left_plane),
       -(bottom_plane + top_plane) / (bottom_plane - top_plane),
       near_plane / (near_plane - far_plane), 1] ∧
    2 / (right_plane - left_plane) * (right_plane - left_plane) = 2 ∧
    2 / (bottom_plane - top_plane) * (bottom_plane - top_plane) = 2 ∧
    1 / (near_plane - far_plane) * (near_plane - far_plane) = 1 ∧
    -(right_plane + left_plane) / (right_plane - left_plane) * (right_plane - left_plane) =
      -(right_plane + left_plane) ∧
    -(bottom_plane + top_plane) / (bottom_plane - top_plane) * (bottom_plane - top_plane) =
      -(bottom_plane + top_plane) ∧
    near_plane / (near_plane - far_plane) * (near_plane - far_plane) = near_plane ∧
    GetOrthographicProjectionMatrix (-1) 1 (-1) 1 0 10 =
      [1, 0, 0, 0, 0, 1, 0, 0, 0, 0, -1 / 10, 0, 0, 0, 0, 1] := by
  have h1 : right_plane - left_plane ≠ 0 := sub_ne_zero.mpr hwidth
  have h2 : bottom_plane - top_plane ≠ 0 := sub_ne_zero.mpr hheight
  have h3 : near_plane - far_plane ≠ 0 := sub_ne_zero.mpr hdepth
  refine ⟨rfl, div_mul_cancel₀ _ h1, div_mul_cancel₀ _ h2, div_mul_cancel₀ _ h3,
    div_mul_cancel₀ _ h1, div_mul_cancel₀ _ h2, div_mul_cancel₀ _ h3, ?_⟩
  norm_num [GetOrthographicProjectionMatrix]

/-- C10 at left=-1, right=1, top=-1, bottom=1, near=0, far=10. -/
theorem GetOrthographicProjectionMatrix_entries_witness :
    (1 : ℚ) ≠ -1 ∧ (1 : ℚ) ≠ -1 ∧ (0 : ℚ) ≠ 10 ∧
    GetOrthographicProjectionMatrix (-1) 1 (-1) 1 0 10 =
      [2 / (1 - -1), 0, 0, 0,
       0, 2 / (1 - -1), 0, 0,
       0, 0, 1 / (0 - 10), 0,
       -(1 + -1) / (1 - -1),
       -(1 + -1) / (1 - -1),
       0 / (0 - 10), 1] :=
  ⟨by norm_num, by norm_num, by norm_num,
    (GetOrthographicProjectionMatrix_entries (-1) 1 (-1) 1 0 10 (by norm_num) (by norm_num)
      (by norm_num)).1⟩

/-! ## Properties of the perspective projection -/

/-- A value that fits an `int` is not changed by the wrap. -/
theorem int32_of_fits (x : Int) (h0 : 0 ≤ x) (h1 : x < 2 ^ 31) : int32 x = x := by
  unfold int32
  norm_num at h1 ⊢
  omega

/-- The `size` computed by `GetImageData` is the exact product when the
product fits an `int`. -/
theorem GetImageData_size (w h c : Int) (hw : 0 < w) (hh : 0 < h) (hc : 0 < c)
    (hfits : w * h * c < 2 ^ 31) : int32 (int32 (w * h) * c) = w * h * c ∧ 0 < w * h * c := by
  have hwh : 0 < w * h := Int.mul_pos hw hh
  have hle : w * h ≤ w * h * c := le_mul_of_one_le_right hwh.le hc
  rw [int32_of_fits (w * h) hwh.le (lt_of_le_of_lt hle hfits),
    int32_of_fits (w * h * c) (Int.mul_pos hwh hc).le hfits]
  exact ⟨rfl, Int.mul_pos hwh hc⟩

/-- A store behind a null check writes the value exactly when the pointer
is not null. -/
theorem storeIfNonNull_eq_map (p : Option Int) (v : Int) :
    storeIfNonNull p v = p.map (fun _ => v) := by
  cases p <;> rfl

/-- An `int` is below `2 ^ 31`. -/
theorem int32_lt (x : Int) : int32 x < 2 ^ 31 := by
  unfold int32
  norm_num
  omega

/-- When the product `width * height * channels` does not fit an `int`, the
`size` that `GetImageData` computes is not the product, so the no-overflow
condition of the size property cannot be weakened. -/
theorem GetImageData_size_ne_of_overflow (w h c : Int) (hover : 2 ^ 31 ≤ w * h * c) :
    int32 (int32 (w * h) * c) ≠ w * h * c := by
  have := int32_lt (int32 (w * h) * c)
  omega

/-- C13, as stated, fails: on a non-empty file that the decoder reads as a
65536 x 65536 image with 1 channel (pixel pointer not null, width, height
and channel count positive) the product is `2 ^ 32`, the `int` `size`
wraps to `0`, and `GetImageData` returns the empty byte sequence and has
written the outputs, `data_size` being `0`. -/
theorem GetImageData_size_wraps :
    GetBinaryFileContents (fun _ => some [1, 2, 3]) "texture.png" ≠ [] ∧
    (65536 : Int) * 65536 * (if (0 : Int) ≤ 0 then 1 else 0) = 2 ^ 32 ∧
    GetImageData (fun _ => some [1, 2, 3])
        (fun _ _ _ => { image_data := some [10, 20, 30], x := 65536, y := 65536, comp := 1 })
        "texture.png" 0
        { width := some 11, height := some 12, components := some 13, data_size := some 14 } =
      ([], { width := some 65536, height := some 65536, components := some 1,
             data_size := some 0 }) := by
  refine ⟨by decide, by decide, by decide⟩

/-- C13, amended. `GetImageData` is empty-on-failure and leaves the outputs
alone on failure: when the file contents are empty, or the decoder returns
a null pointer or a non-positive width, height or channel count, the result
is the empty byte sequence and the four outputs are as before. Otherwise,
when the product `width * height * (requested_components <= 0 ? file
channels : requested_components)` is below `2 ^ 31`, the result is a
non-empty buffer of exactly that many bytes, holding the first bytes of
the pixel buffer, and that number is written through `data_size`, the
width, the height and the file's channel count through the other three
pointers, each exactly when the pointer is not null. -/
theorem GetImageData_empty_on_failure (fs : FileSystem)
    (stbi_load_from_memory : List Byte → Int → Int → StbiImage)
    (filename : String) (requested_components : Int) (out : ImageOutputs) :
    (GetBinaryFileContents fs filename = [] →
      GetImageData fs stbi_load_from_memory filename requested_components out = ([], out)) ∧
    (∀ image : StbiImage,
      stbi_load_from_memory (GetBinaryFileContents fs filename)
        (int32 (GetBinaryFileContents fs filename).length) requested_components = image →
      image.image_data = none ∨ image.x ≤ 0 ∨ image.y ≤ 0 ∨ image.comp ≤ 0 →
      GetImageData fs stbi_load_from_memory filename requested_components out = ([], out)) ∧
    (∀ (image : StbiImage) (pixels : List Byte),
      GetBinaryFileContents fs filename ≠ [] →
      stbi_load_from_memory (GetBinaryFileContents fs filename)
        (int32 (GetBinaryFileContents fs filename).length) requested_components = image →
      image.image_data = some pixels → 0 < image.x → 0 < image.y → 0 < image.comp →
      image.x * image.y *
        (if requested_components ≤ 0 then image.comp else requested_components) < 2 ^ 31 →
      ((GetImageData fs stbi_load_from_memory filename requested_components out).1.length
          : Int) =
        image.x * image.y *
          (if requested_components ≤ 0 then image.comp else requested_components) ∧
      (GetImageData fs stbi_load_from_memory filename requested_components out).1 ≠ [] ∧
      (GetImageData fs stbi_load_from_memory filename requested_components out).2 =
        { width := out.width.map (fun _ => image.x),
          height := out.height.map (fun _ => image.y),
          components := out.components.map (fun _ => image.comp),
          data_size := out.data_size.map (fun _ =>
            image.x * image.y *
              (if requested_components ≤ 0 then image.comp else requested_components)) } ∧
      ∀ i : Nat, i < pixels.length →
        (i : Int) < image.x * image.y *
          (if requested_components ≤ 0 then image.comp else requested_components) →
        (GetImageData fs stbi_load_from_memory filename requested_components out).1[i]? =
          pixels[i]?) := by
  refine ⟨?_, ?_, ?_⟩
  · intro h
    simp [GetImageData, h]
  · intro image himage hfail
    by_cases h0 : (GetBinaryFileContents fs filename).length = 0
    · unfold GetImageData
      simp only [if_pos h0]
    · cases hdata : image.image_data with
      | none =>
        unfold GetImageData
        simp only [himage, hdata, if_neg h0]
      | some pixels =>
        have hdims : image.x ≤ 0 ∨ image.y ≤ 0 ∨ image.comp ≤ 0 := by
          rcases hfail with h | h
          · rw [hdata] at h
            cases h
          · exact h
        unfold GetImageData
        simp only [himage, hdata, if_neg h0, if_pos hdims]
  · intro image pixels hfile himage hdata hx hy hcomp hfits
    have hc : 0 < (if requested_components ≤ 0 then image.comp else requested_components) := by
      split_ifs with hr
      · exact hcomp
      · omega
    obtain ⟨hsize, hpos⟩ := GetImageData_size image.x image.y _ hx hy hc hfits
    have hlen : (GetBinaryFileContents fs filename).length ≠ 0 := by
      intro h
      exact hfile (List.length_eq_zero.mp h)
    have hdims : ¬ (image.x ≤ 0 ∨ image.y ≤ 0 ∨ image.comp ≤ 0) := by omega
    have hres : GetImageData fs stbi_load_from_memory filename requested_components out =
        (pixels.take (image.x * image.y *
            (if requested_components ≤ 0 then image.comp else requested_components)).toNat ++
          List.replicate ((image.x * image.y *
            (if requested_components ≤ 0 then image.comp
              else requested_components)).toNat - pixels.length) 0,
         { width := storeIfNonNull out.width image.x,
           height := storeIfNonNull out.height image.y,
           components := storeIfNonNull out.components image.comp,
           data_size := storeIfNonNull out.data_size
             (image.x * image.y *
               (if requested_components ≤ 0 then image.comp
                 else requested_components)) }) := by
      unfold GetImageData
      simp only [himage, hdata, if_neg hlen, if_neg hdims, hsize]
    rw [hres]
    generalize image.x * image.y *
      (if requested_components ≤ 0 then image.comp else requested_components) = n at hpos ⊢
    have hlength : (pixels.take n.toNat ++
        List.replicate (n.toNat - pixels.length) (0 : Byte)).length = n.toNat := by
      simp only [List.length_append, List.length_take, List.length_replicate]
      omega
    refine ⟨?_, ?_, ?_, ?_⟩
    · simp only [hlength]
      omega
    · intro hnil
      have := congrArg List.length hnil
      rw [hlength] at this
      simp at this
      omega
    · simp only [storeIfNonNull_eq_map]
    · intro i hi hin
      have hit : i < n.toNat := by omega
      simp only
      rw [List.getElem?_append_left (by simp [List.length_take]; omega)]
      rw [List.getElem?_take_of_lt hit]

/-- C13, amended, on a three-byte file that the decoder reads as a 1 x 2
image with 3 channels, no component count being requested and the
`components` pointer being null: six bytes come back and `6` is written
through `data_size`. -/
theorem GetImageData_empty_on_failure_witness :
    ((GetImageData (fun _ => some [1, 2, 3])
        (fun _ _ _ => { image_data := some [10, 20, 30, 40, 50, 60], x := 1, y := 2, comp := 3 })
        "texture.png" 0
        { width := some 0, height := some 0, components := none, data_size := some 0 }).1.length
        : Int) =
      1 * 2 * (if (0 : Int) ≤ 0 then 3 else 0) ∧
    (GetImageData (fun _ => some [1, 2, 3])
        (fun _ _ _ => { image_data := some [10, 20, 30, 40, 50, 60], x := 1, y := 2, comp := 3 })
        "texture.png" 0
        { width := some 0, height := some 0, components := none, data_size := some 0 }).2 =
      { width := some 1, height := some 2, components := none, data_size := some 6 } :=
  ⟨((GetImageData_empty_on_failure (fun _ => some [1, 2, 3])
      (fun _ _ _ => { image_data := some [10, 20, 30, 40, 50, 60], x := 1, y := 2, comp := 3 })
      "texture.png" 0
      { width := some 0, height := some 0, components := none, data_size := some 0 }).2.2
    { image_data := some [10, 20, 30, 40, 50, 60], x := 1, y := 2, comp := 3 }
    [10, 20, 30, 40, 50, 60] (by decide) rfl rfl (by decide) (by decide) (by decide)
    (by decide)).1, by decide⟩

/-! ## Properties of the depth format selection -/

/-- A flag word has a non-empty intersection with the single bit `2 ^ n`
exactly when it contains that bit. -/
theorem and_two_pow_ne_zero_iff (x n : Nat) : x &&& 2 ^ n ≠ 0 ↔ x.testBit n = true := by
  constructor
  · intro h
    obtain ⟨i, hi⟩ := Nat.ne_zero_implies_bit_true h
    rw [Nat.testBit_and, Nat.testBit_two_pow] at hi
    simp only [Bool.and_eq_true, decide_eq_true_eq] at hi
    rw [hi.2]
    exact hi.1
  · intro h h0
    have : (x &&& 2 ^ n).testBit n = true := by
      rw [Nat.testBit_and, Nat.testBit_two_pow, h]
      simp
    rw [h0, Nat.zero_testBit] at this
    cases this

/-- The loop of `getSupportedDepthFormat` finds the first format of the
list it is given whose optimal-tiling features intersect the
depth-stencil-attachment bit. -/
theorem getSupportedDepthFormat_loop_eq_find
    (props : VkPhysicalDevice → VkFormat → VkFormatProperties)
    (physicalDevice : VkPhysicalDevice) (formats : List VkFormat) (depthFormat : VkFormat) :
    getSupportedDepthFormat_loop props physicalDevice formats depthFormat =
      match formats.find? (fun format =>
        decide ((props physicalDevice format).optimalTilingFeatures &&&
          VK_FORMAT_FEATURE_DEPTH_STENCIL_ATTACHMENT_BIT ≠ 0)) with
      | some format => (true, format)
      | none => (false, depthFormat) := by
  induction formats with
  | nil => rfl
  | cons format rest ih =>
    unfold getSupportedDepthFormat_loop
    by_cases h : (props physicalDevice format).optimalTilingFeatures &&&
        VK_FORMAT_FEATURE_DEPTH_STENCIL_ATTACHMENT_BIT ≠ 0
    · simp only [if_pos h]
      rw [List.find?_cons_of_pos _ (by simpa using h)]
    · simp only [if_neg h]
      rw [List.find?_cons_of_neg _ (by simpa using h), ih]

/-- C14. With the device's format properties a function from format to
feature bits, `getSupportedDepthFormat` goes through the priority list
`[D32_SFLOAT_S8_UINT, D32_SFLOAT, D24_UNORM_S8_UINT, D16_UNORM_S8_UINT,
D16_UNORM]`: when it returns true, `*depthFormat` is a format of the list
whose optimal-tiling features contain the depth-stencil-attachment bit
(bit 9) and no format before it in the list is supported; it returns false
if and only if none of the five formats is supported, and then
`*depthFormat` is as before. -/
theorem getSupportedDepthFormat_first_supported
    (props : VkPhysicalDevice → VkFormat → VkFormatProperties)
    (physicalDevice : VkPhysicalDevice) (depthFormat : VkFormat) :
    depthFormats = [VK_FORMAT_D32_SFLOAT_S8_UINT, VK_FORMAT_D32_SFLOAT,
      VK_FORMAT_D24_UNORM_S8_UINT, VK_FORMAT_D16_UNORM_S8_UINT, VK_FORMAT_D16_UNORM] ∧
    VK_FORMAT_FEATURE_DEPTH_STENCIL_ATTACHMENT_BIT = 2 ^ 9 ∧
    ((getSupportedDepthFormat props physicalDevice depthFormat).1 = true →
      ∃ earlier later : List VkFormat,
        depthFormats =
          earlier ++ (getSupportedDepthFormat props physicalDevice depthFormat).2 :: later ∧
        (props physicalDevice
          (getSupportedDepthFormat props physicalDevice depthFormat).2
            ).optimalTilingFeatures.testBit 9 = true ∧
        ∀ format ∈ earlier,
          (props physicalDevice format).optimalTilingFeatures.testBit 9 = false) ∧
    ((getSupportedDepthFormat props physicalDevice depthFormat).1 = false ↔
      ∀ format ∈ depthFormats,
        (props physicalDevice format).optimalTilingFeatures.testBit 9 = false) ∧
    ((getSupportedDepthFormat props physicalDevice depthFormat).1 = false →
      (getSupportedDepthFormat props physicalDevice depthFormat).2 = depthFormat) := by
  have hbit : ∀ format : VkFormat,
      (props physicalDevice format).optimalTilingFeatures &&&
          VK_FORMAT_FEATURE_DEPTH_STENCIL_ATTACHMENT_BIT ≠ 0 ↔
        (props physicalDevice format).optimalTilingFeatures.testBit 9 = true :=
    fun format => and_two_pow_ne_zero_iff _ 9
  refine ⟨rfl, rfl, ?_⟩
  unfold getSupportedDepthFormat
  rw [getSupportedDepthFormat_loop_eq_find]
  cases hfind : depthFormats.find? (fun format =>
      decide ((props physicalDevice format).optimalTilingFeatures &&&
        VK_FORMAT_FEATURE_DEPTH_STENCIL_ATTACHMENT_BIT ≠ 0)) with
  | none =>
    rw [List.find?_eq_none] at hfind
    refine ⟨fun h => (by cases h), ⟨fun _ format hmem => ?_, fun _ => rfl⟩, fun _ => rfl⟩
    have := hfind format hmem
    rw [decide_eq_true_eq, hbit] at this
    simpa using this
  | some found =>
    rw [List.find?_eq_some] at hfind
    obtain ⟨hfound, earlier, later, hsplit, hearlier⟩ := hfind
    rw [decide_eq_true_eq, hbit] at hfound
    refine ⟨fun _ => ⟨earlier, later, hsplit, hfound, fun format hmem => ?_⟩,
      ⟨fun h => (by cases h), fun hall => ?_⟩, fun h => (by cases h)⟩
    · have := hearlier format hmem
      simp only [Bool.not_eq_true', decide_eq_false_iff_not] at this
      rw [hbit] at this
      simpa using this
    · exfalso
      have hmem : found ∈ depthFormats := by
        rw [hsplit]
        simp
      rw [hall found hmem] at hfound
      cases hfound

/-! ## More properties of `alignedSize` -/

/-- For every value and every alignment of at least `1`, `alignedSize` is
`((value + alignment - 1) mod 2^32) & ~(alignment - 1)`. -/
theorem alignedSize_eq_wrapped (v a : Nat) (ha : 1 ≤ a) (ha32 : a < 2 ^ 32) :
    alignedSize v a = ((v + a - 1) % 2 ^ 32) &&& (2 ^ 32 - 1 - (a - 1)) := by
  have h1 : u32sub (u32add v a) 1 = (v + a - 1) % 2 ^ 32 := by
    unfold u32sub u32add
    norm_num
    omega
  have h2 : u32not (u32sub a 1) = 2 ^ 32 - 1 - (a - 1) := by
    unfold u32not u32sub
    norm_num at ha32 ⊢
    omega
  unfold alignedSize
  rw [h1, h2]

/-- A multiple of `2 ^ k` below `2 ^ 32` leaves room for `2 ^ k - 1` more. -/
theorem multiple_add_lt (d k : Nat) (hk : k < 32) (h : d * 2 ^ k < 2 ^ 32) :
    d * 2 ^ k + 2 ^ k - 1 < 2 ^ 32 := by
  have hpos : 0 < 2 ^ k := Nat.pow_pos (by norm_num)
  have hsplit : 2 ^ 32 = 2 ^ (32 - k) * 2 ^ k := by
    rw [← Nat.pow_add]
    congr 1
    omega
  rw [hsplit] at h ⊢
  have hd : d < 2 ^ (32 - k) := Nat.lt_of_mul_lt_mul_right h
  have hstep : (d + 1) * 2 ^ k ≤ 2 ^ (32 - k) * 2 ^ k := Nat.mul_le_mul_right _ hd
  have hexp : (d + 1) * 2 ^ k = d * 2 ^ k + 2 ^ k := by ring
  omega

/-- Rounding a multiple of `a` up to a multiple of `a` gives it back. -/
theorem multiple_div_mul (d a : Nat) (ha : 0 < a) : (d * a + a - 1) / a * a = d * a := by
  have h : d * a + a - 1 = (a - 1) + a * d := by
    rw [Nat.mul_comm a d]
    omega
  rw [h, Nat.add_mul_div_left _ _ ha, Nat.div_eq_of_lt (by omega), Nat.zero_add]

/-- C15. Under the no-wrap precondition `v + a - 1 < 2 ^ 32`, for every
32-bit `v` and every power-of-two alignment `a = 2 ^ k` (`k < 32`), the
result `r = alignedSize v a` satisfies: `a` divides `r`, `v ≤ r < v + a`,
`alignedSize r a = r`, and `r = v` exactly when `a` divides `v`. The
addition being 32-bit modular, for every 32-bit `v` and alignment
`1 ≤ a < 2 ^ 32` the result is
`((v + a - 1) mod 2 ^ 32) & ~(a - 1)`, which for `v = 2 ^ 32 - 1`, `a = 8`
is the wrapped value `6 & ~7 = 0`. -/
theorem alignedSize_no_wrap (v k : Nat) (hk : k < 32) (hnowrap : v + 2 ^ k - 1 < 2 ^ 32) :
    2 ^ k ∣ alignedSize v (2 ^ k) ∧
    v ≤ alignedSize v (2 ^ k) ∧
    alignedSize v (2 ^ k) < v + 2 ^ k ∧
    alignedSize (alignedSize v (2 ^ k)) (2 ^ k) = alignedSize v (2 ^ k) ∧
    (alignedSize v (2 ^ k) = v ↔ 2 ^ k ∣ v) ∧
    (∀ w a : Nat, 1 ≤ a → a < 2 ^ 32 →
      alignedSize w a = ((w + a - 1) % 2 ^ 32) &&& (2 ^ 32 - 1 - (a - 1))) ∧
    (2 ^ 32 - 1 + 8 - 1) % 2 ^ 32 = 6 ∧
    alignedSize (2 ^ 32 - 1) 8 = 6 &&& (2 ^ 32 - 1 - 7) ∧
    alignedSize (2 ^ 32 - 1) 8 = 0 := by
  have hpos : 0 < 2 ^ k := Nat.pow_pos (by norm_num)
  have hr := alignedSize_eq_div_mul v k hk hnowrap
  obtain ⟨hdvd, hge, hleast⟩ := div_mul_least v (2 ^ k) hpos
  have hle : (v + 2 ^ k - 1) / 2 ^ k * 2 ^ k ≤ v + 2 ^ k - 1 := Nat.div_mul_le_self _ _
  refine ⟨?_, ?_, ?_, ?_, ?_, fun w a => alignedSize_eq_wrapped w a, by decide, by decide,
    by decide⟩
  · rw [hr]
    exact hdvd
  · rw [hr]
    exact hge
  · rw [hr]
    omega
  · rw [hr, alignedSize_eq_div_mul _ k hk (multiple_add_lt _ k hk (by omega)),
      multiple_div_mul _ _ hpos]
  · rw [hr]
    constructor
    · intro h
      rw [← h]
      exact hdvd
    · intro h
      exact Nat.le_antisymm (hleast v h (Nat.le_refl v)) hge

/-- C15 at `v = 13` and alignment `2 ^ 3`. -/
theorem alignedSize_no_wrap_witness :
    3 < 32 ∧ 13 + 2 ^ 3 - 1 < 2 ^ 32 ∧ 2 ^ 3 ∣ alignedSize 13 (2 ^ 3) ∧
    13 ≤ alignedSize 13 (2 ^ 3) :=
  ⟨by decide, by decide, (alignedSize_no_wrap 13 3 (by decide) (by decide)).1,
    (alignedSize_no_wrap 13 3 (by decide) (by decide)).2.1⟩

/-! ## Properties of `AutoDeleter` -/

/-- After a move from `other` into a distinct `this`, the object at `this`
is the former object at `other`. -/
theorem AutoDeleter.moveAssign_this (memory : AutoDeleterMemory) (this other : Nat)
    (h : this ≠ other) : AutoDeleter.moveAssign memory this other this = memory other := by
  simp [AutoDeleter.moveAssign, AutoDeleterMemory.store, h, Ne.symm h]

/-- After a move from `other` into a distinct `this`, the object at `other`
keeps its deleter and device and holds the null handle. -/
theorem AutoDeleter.moveAssign_other (memory : AutoDeleterMemory) (this other : Nat)
    (h : this ≠ other) :
    AutoDeleter.moveAssign memory this other other =
      { memory other with Object := VK_NULL_HANDLE } := by
  simp [AutoDeleter.moveAssign, AutoDeleterMemory.store, h, Ne.symm h]

/-- A move leaves the objects at all other addresses alone. -/
theorem AutoDeleter.moveAssign_frame (memory : AutoDeleterMemory) (this other a : Nat)
    (hthis : a ≠ this) (hother : a ≠ other) :
    AutoDeleter.moveAssign memory this other a = memory a := by
  unfold AutoDeleter.moveAssign
  split_ifs <;> simp [AutoDeleterMemory.store, hthis, hother]

/-- C16. Destruction of an `AutoDeleter` calls the deleter exactly once, on
its device and object, if `Object`, `Deleter` and `Device` are all
non-null, and not at all otherwise. After move-assignment or
move-construction from a source `s` into a distinct target `t`, `t` holds
the source's former `Object`, `Deleter` and `Device`, `s.Get()` is the null
handle and `!s` is true; destroying both `s` and `t` makes exactly the
calls destroying the former source would have made, so the moved object is
released at most once, and exactly once when the source's three members
were non-null; no other object is touched. Self-move-assignment leaves the
memory unchanged. -/
theorem AutoDeleter_releases_at_most_once (memory : AutoDeleterMemory) (t s : Nat)
    (hdistinct : t ≠ s) :
    (∀ a : AutoDeleter,
      (a.Object ≠ VK_NULL_HANDLE ∧ a.Deleter ≠ 0 ∧ a.Device ≠ VK_NULL_HANDLE →
        a.destroy = [{ function := a.Deleter, device := a.Device, object := a.Object,
                       pAllocator := 0 }]) ∧
      (¬ (a.Object ≠ VK_NULL_HANDLE ∧ a.Deleter ≠ 0 ∧ a.Device ≠ VK_NULL_HANDLE) →
        a.destroy = [])) ∧
    (AutoDeleter.moveAssign memory t s t).Object = (memory s).Object ∧
    (AutoDeleter.moveAssign memory t s t).Deleter = (memory s).Deleter ∧
    (AutoDeleter.moveAssign memory t s t).Device = (memory s).Device ∧
    (AutoDeleter.moveAssign memory t s s).Get = VK_NULL_HANDLE ∧
    (AutoDeleter.moveAssign memory t s s).not = true ∧
    (AutoDeleter.moveAssign memory t s s).destroy ++
        (AutoDeleter.moveAssign memory t s t).destroy = (memory s).destroy ∧
    ((AutoDeleter.moveAssign memory t s s).destroy ++
        (AutoDeleter.moveAssign memory t s t).destroy).length ≤ 1 ∧
    ((memory s).Object ≠ VK_NULL_HANDLE ∧ (memory s).Deleter ≠ 0 ∧
        (memory s).Device ≠ VK_NULL_HANDLE →
      (AutoDeleter.moveAssign memory t s s).destroy ++
          (AutoDeleter.moveAssign memory t s t).destroy =
        [{ function := (memory s).Deleter, device := (memory s).Device,
           object := (memory s).Object, pAllocator := 0 }]) ∧
    (∀ a : Nat, a ≠ t → a ≠ s → AutoDeleter.moveAssign memory t s a = memory a) ∧
    AutoDeleter.moveConstruct memory t s = AutoDeleter.moveAssign memory t s ∧
    (∀ (m : AutoDeleterMemory) (a : Nat), AutoDeleter.moveAssign m a a = m) := by
  have hdestroy : ∀ a : AutoDeleter,
      (a.Object ≠ VK_NULL_HANDLE ∧ a.Deleter ≠ 0 ∧ a.Device ≠ VK_NULL_HANDLE →
        a.destroy = [{ function := a.Deleter, device := a.Device, object := a.Object,
                       pAllocator := 0 }]) ∧
      (¬ (a.Object ≠ VK_NULL_HANDLE ∧ a.Deleter ≠ 0 ∧ a.Device ≠ VK_NULL_HANDLE) →
        a.destroy = []) := by
    intro a
    constructor
    · intro h
      unfold AutoDeleter.destroy
      rw [if_pos h]
    · intro h
      unfold AutoDeleter.destroy
      rw [if_neg h]
  have ht := AutoDeleter.moveAssign_this memory t s hdistinct
  have hs := AutoDeleter.moveAssign_other memory t s hdistinct
  have hsrc : (AutoDeleter.moveAssign memory t s s).destroy = [] := by
    rw [hs]
    exact (hdestroy _).2 (fun h => h.1 rfl)
  have hboth : (AutoDeleter.moveAssign memory t s s).destroy ++
      (AutoDeleter.moveAssign memory t s t).destroy = (memory s).destroy := by
    rw [hsrc, ht, List.nil_append]
  refine ⟨hdestroy, by rw [ht], by rw [ht], by rw [ht], ?_, ?_, hboth, ?_, ?_, ?_, rfl, ?_⟩
  · rw [hs]
    rfl
  · rw [hs]
    rfl
  · rw [hboth]
    unfold AutoDeleter.destroy
    split_ifs <;> simp
  · intro h
    rw [hboth]
    exact (hdestroy _).1 h
  · intro a hat has
    exact AutoDeleter.moveAssign_frame memory t s a hat has
  · intro m a
    simp [AutoDeleter.moveAssign]

/-- C16 for two objects sharing nothing: the target at address 1 is empty,
the source at address 2 holds handle 7 with deleter 5 on device 3. -/
theorem AutoDeleter_releases_at_most_once_witness :
    (1 : Nat) ≠ 2 ∧
    (AutoDeleter.moveAssign
        (fun a => if a = 2 then { Object := 7, Deleter := 5, Device := 3 }
          else AutoDeleter.default) 1 2 2).destroy ++
      (AutoDeleter.moveAssign
        (fun a => if a = 2 then { Object := 7, Deleter := 5, Device := 3 }
          else AutoDeleter.default) 1 2 1).destroy =
      (if (2 : Nat) = 2 then ({ Object := 7, Deleter := 5, Device := 3 } : AutoDeleter)
        else AutoDeleter.default).destroy :=
  ⟨by decide,
    (AutoDeleter_releases_at_most_once
      (fun a => if a = 2 then { Object := 7, Deleter := 5, Device := 3 }
        else AutoDeleter.default) 1 2 (by decide)).2.2.2.2.2.2.1⟩

end Tools
end EngineBase
